import Mathlib

/-!
# Level mesh, smoothing groups, portals and the portal-aware tracer

A shallow embedding of `src/common/rendering/hwrenderer/data/hw_levelmesh.h`.

Conventions of the embedding

* `float` values are embedded as exact rationals (`ℚ`): every arithmetic step of the
  source is carried out without rounding, and there is no infinity or NaN.  The
  decimal constants of the source (`0.9999f`, `1.001f`, `0.01f`, `0.001`, `2.0f`,
  `10.0f`) are the rationals they are written as.
* Where rounding decides a statement, namely for the remaining distance of the tracer
  (`maxDist -= travelDist`), the loop is also given with every float operation rounded to
  binary32 (`round32`, round to nearest, ties to even): `traceHit32`, `traceBody32`,
  `traceLoop32`, `Trace32`.
* `VSMatrix` is the one object the source also observes through its bytes
  (`std::memcmp`), so its sixteen entries keep their IEEE-754 binary32 words
  (`Float32`, finite words only); arithmetic uses the rational a word denotes.
* `int` is `Int`; `uint32_t` results are reduced modulo `2 ^ 32`.
* A `LevelMeshSurface*` is the index of the surface in the list that
  `GetSurface` / `GetSurfaceCount` enumerate.
* A read outside an array is the result `none` of `elemAt`; the tracer reports it as
  `TraceResult.outOfRange`.
* `TriangleMeshShape::find_first_hit` (hw_collision.h) is a parameter of the tracer: the
  statements hold for every nearest-hit query, under the hypotheses they name.
* The `while (true)` loop of `Trace` is run with a bound on the number of executions of its
  body (`traceLoop`, `traceLoop32`): the result is `none` when the loop is still running
  after that many executions.
-/

namespace LevelMeshModel

/-! ## Vectors -/

/-- Two floats, as `FVector2`. -/
structure FVector2 where
  X : ℚ
  Y : ℚ
deriving DecidableEq

/-- Three floats, as `FVector3`. -/
structure FVector3 where
  X : ℚ
  Y : ℚ
  Z : ℚ
deriving DecidableEq

/-- Four floats, as `FVector4`. -/
structure FVector4 where
  X : ℚ
  Y : ℚ
  Z : ℚ
  W : ℚ
deriving DecidableEq

/-- Componentwise sum, `operator+` of `FVector3`. -/
def FVector3.add (a b : FVector3) : FVector3 := ⟨a.X + b.X, a.Y + b.Y, a.Z + b.Z⟩

/-- Componentwise difference, `operator-` of `FVector3`. -/
def FVector3.sub (a b : FVector3) : FVector3 := ⟨a.X - b.X, a.Y - b.Y, a.Z - b.Z⟩

/-- Scaling by a float, `operator*` of `FVector3`. -/
def FVector3.scale (a : FVector3) (k : ℚ) : FVector3 := ⟨a.X * k, a.Y * k, a.Z * k⟩

/-- Dot product, `operator|` of `FVector3`. -/
def FVector3.dot (a b : FVector3) : ℚ := a.X * b.X + a.Y * b.Y + a.Z * b.Z

/-- Cross product, `operator^` of `FVector3`. -/
def FVector3.cross (a b : FVector3) : FVector3 :=
  ⟨a.Y * b.Z - a.Z * b.Y, a.Z * b.X - a.X * b.Z, a.X * b.Y - a.Y * b.X⟩

/-- The first three components, `FVector4::XYZ()`. -/
def FVector4.XYZ (p : FVector4) : FVector3 := ⟨p.X, p.Y, p.Z⟩

/-- The integer nearest to `q`, the even one of the two when `q` lies half way. -/
def roundHalfEven (q : ℚ) : ℤ :=
  if q - (⌊q⌋ : ℚ) < 1 / 2 then ⌊q⌋
  else if 1 / 2 < q - (⌊q⌋ : ℚ) then ⌊q⌋ + 1
  else if ⌊q⌋ % 2 = 0 then ⌊q⌋ else ⌊q⌋ + 1

/-- The binary32 value of an exact result (round to nearest, ties to even): with `e` the
binary exponent of `x`, at least `-126`, the nearest multiple of `2 ^ (e - 23)`.  Results
beyond the largest finite binary32 value are not modelled. -/
def round32 (x : ℚ) : ℚ :=
  if x = 0 then 0
  else
    let e : ℤ := max (Int.log 2 |x|) (-126)
    let ulp : ℚ := (2 : ℚ) ^ (e - 23)
    (roundHalfEven (x / ulp) : ℚ) * ulp

/-- Each component rounded to binary32. -/
def FVector3.round32 (v : FVector3) : FVector3 :=
  ⟨LevelMeshModel.round32 v.X, LevelMeshModel.round32 v.Y, LevelMeshModel.round32 v.Z⟩

/-- The expression `o + d * k` in binary32: the product and the sum are rounded. -/
def FVector3.mulAdd32 (o d : FVector3) (k : ℚ) : FVector3 :=
  ⟨LevelMeshModel.round32 (o.X + LevelMeshModel.round32 (d.X * k)),
   LevelMeshModel.round32 (o.Y + LevelMeshModel.round32 (d.Y * k)),
   LevelMeshModel.round32 (o.Z + LevelMeshModel.round32 (d.Z * k))⟩

/-- Reading `a[i]` with an `int` index: `none` outside `0 .. size-1`. -/
def elemAt {α : Type} (a : List α) (i : Int) : Option α :=
  if 0 ≤ i then a.get? i.toNat else none

/-! ## Surfaces and smoothing groups -/

/-- Axis-aligned box, `BBox`. -/
structure BBox where
  min : FVector3
  max : FVector3
deriving DecidableEq

/-- Surface location in the lightmap texture (the anonymous struct `AtlasTile`). -/
structure AtlasTileRect where
  X : Int := 0
  Y : Int := 0
  Width : Int := 0
  Height : Int := 0
  ArrayIndex : Int := 0
deriving DecidableEq

/-- The struct `LevelMeshSurface`; `tileSurfaces` holds surface indices for the pointers. -/
structure LevelMeshSurface where
  numVerts : Int
  startVertIndex : Nat
  startUvIndex : Nat
  startElementIndex : Nat
  numElements : Nat
  plane : FVector4
  bSky : Bool
  AtlasTile : AtlasTileRect := {}
  needsUpdate : Bool := true
  texture : Int := 0
  alpha : ℚ := 1
  portalIndex : Int := 0
  sectorGroup : Int := 0
  bounds : BBox
  sampleDimension : Nat := 0
  translateWorldToLocal : FVector3 := ⟨0, 0, 0⟩
  projLocalToU : FVector3 := ⟨0, 0, 0⟩
  projLocalToV : FVector3 := ⟨0, 0, 0⟩
  smoothingGroupIndex : Int := -1
  tileSurfaces : List Nat := []
  LightListPos : Int := -1
  LightListCount : Int := 0
  LightListResetCounter : Int := -1
deriving DecidableEq

/-- The value of `Area()`: the `int` product `Width * Height` converted to `uint32_t`. -/
def LevelMeshSurface.Area (s : LevelMeshSurface) : Nat :=
  ((s.AtlasTile.Width * s.AtlasTile.Height) % 4294967296).toNat

/-- The surface with its `tileSurfaces` emptied: what the second loop of
`BuildSmoothingGroups` does not overwrite. -/
def LevelMeshSurface.withoutTiles (s : LevelMeshSurface) : LevelMeshSurface :=
  { s with tileSurfaces := [] }

/-- The surface with its `smoothingGroupIndex` reset and its `tileSurfaces` emptied: what
`BuildSmoothingGroups` does not overwrite. -/
def LevelMeshSurface.withoutGroup (s : LevelMeshSurface) : LevelMeshSurface :=
  { s with smoothingGroupIndex := -1, tileSurfaces := [] }

/-- The struct `LevelMeshSmoothingGroup`; `surfaces` holds surface indices for the pointers. -/
structure LevelMeshSmoothingGroup where
  plane : FVector4 := ⟨0, 0, 1, 0⟩
  sectorGroup : Int := 0
  surfaces : List Nat := []
deriving DecidableEq

/-! ## Portals -/

/-- A finite IEEE-754 binary32 word: sign bit, biased exponent `0 .. 254`, 23 fraction bits. -/
structure Float32 where
  sign : Bool
  expo : Fin 255
  frac : Fin 8388608
deriving DecidableEq

/-- The rational number a finite binary32 word denotes. -/
def Float32.toRat (f : Float32) : ℚ :=
  let mag : ℚ :=
    if f.expo.val = 0 then (f.frac.val : ℚ) * (2 : ℚ) ^ (-149 : ℤ)
    else ((8388608 : ℚ) + (f.frac.val : ℚ)) * (2 : ℚ) ^ ((f.expo.val : ℤ) - 150)
  if f.sign then -mag else mag

/-- The 32-bit pattern of a word. -/
def Float32.bits (f : Float32) : Nat :=
  (if f.sign then 2147483648 else 0) + f.expo.val * 8388608 + f.frac.val

/-- The four bytes of a word in memory order (little-endian). -/
def Float32.bytes (f : Float32) : List Nat :=
  [f.bits % 256, f.bits / 256 % 256, f.bits / 65536 % 256, f.bits / 16777216 % 256]

/-- The word of `0.0f`. -/
def Float32.zero : Float32 := ⟨false, 0, 0⟩

/-- The word of `1.0f`. -/
def Float32.one : Float32 := ⟨false, 127, 0⟩

/-- Modelled from the spec: `VSMatrix` (common/utility/matrix.h is not among the sources),
the sixteen floats `mMatrix[16]` of a 4x4 transform in memory order, column-major, so
`m12 m13 m14` is the translation. -/
structure VSMatrix where
  m0 : Float32
  m1 : Float32
  m2 : Float32
  m3 : Float32
  m4 : Float32
  m5 : Float32
  m6 : Float32
  m7 : Float32
  m8 : Float32
  m9 : Float32
  m10 : Float32
  m11 : Float32
  m12 : Float32
  m13 : Float32
  m14 : Float32
  m15 : Float32
deriving DecidableEq

/-- Modelled from the spec: `VSMatrix::loadIdentity` (matrix.h is not among the sources). -/
def VSMatrix.identity : VSMatrix :=
  { m0 := Float32.one, m1 := Float32.zero, m2 := Float32.zero, m3 := Float32.zero,
    m4 := Float32.zero, m5 := Float32.one, m6 := Float32.zero, m7 := Float32.zero,
    m8 := Float32.zero, m9 := Float32.zero, m10 := Float32.one, m11 := Float32.zero,
    m12 := Float32.zero, m13 := Float32.zero, m14 := Float32.zero, m15 := Float32.one }

/-- Modelled from the spec: `VSMatrix::operator*(FVector4)` (matrix.h is not among the
sources), the product of the 4x4 matrix with a column vector. -/
def VSMatrix.mulVec (m : VSMatrix) (v : FVector4) : FVector4 :=
  ⟨m.m0.toRat * v.X + m.m4.toRat * v.Y + m.m8.toRat * v.Z + m.m12.toRat * v.W,
   m.m1.toRat * v.X + m.m5.toRat * v.Y + m.m9.toRat * v.Z + m.m13.toRat * v.W,
   m.m2.toRat * v.X + m.m6.toRat * v.Y + m.m10.toRat * v.Z + m.m14.toRat * v.W,
   m.m3.toRat * v.X + m.m7.toRat * v.Y + m.m11.toRat * v.Z + m.m15.toRat * v.W⟩

/-- The object representation of a `VSMatrix`: its `sizeof(VSMatrix)` = 64 bytes. -/
def VSMatrix.bytes (m : VSMatrix) : List Nat :=
  m.m0.bytes ++ m.m1.bytes ++ m.m2.bytes ++ m.m3.bytes ++
  m.m4.bytes ++ m.m5.bytes ++ m.m6.bytes ++ m.m7.bytes ++
  m.m8.bytes ++ m.m9.bytes ++ m.m10.bytes ++ m.m11.bytes ++
  m.m12.bytes ++ m.m13.bytes ++ m.m14.bytes ++ m.m15.bytes

/-- The result of `std::memcmp` on two byte sequences of one length: zero when they agree,
otherwise the difference of the first pair of bytes that differ. -/
def memcmp : List Nat → List Nat → Int
  | a :: as, b :: bs => if a = b then memcmp as bs else (a : Int) - (b : Int)
  | _, _ => 0

/-- The struct `LevelMeshPortal`. -/
structure LevelMeshPortal where
  transformation : VSMatrix := VSMatrix.identity
  sourceSectorGroup : Int := 0
  targetSectorGroup : Int := 0
deriving DecidableEq

namespace LevelMeshPortal

/-- The method `TransformPosition`: the point `pos` with `w = 1` through the matrix. -/
def TransformPosition (p : LevelMeshPortal) (pos : FVector3) : FVector3 :=
  let v := p.transformation.mulVec ⟨pos.X, pos.Y, pos.Z, 1⟩
  ⟨v.X, v.Y, v.Z⟩

/-- The method `TransformRotation`: the direction `dir` with `w = 0` through the matrix. -/
def TransformRotation (p : LevelMeshPortal) (dir : FVector3) : FVector3 :=
  let v := p.transformation.mulVec ⟨dir.X, dir.Y, dir.Z, 0⟩
  ⟨v.X, v.Y, v.Z⟩

/-- The method `IsInverseTransformationPortal`; `abs` is the absolute value of a float. -/
def IsInverseTransformationPortal (self portal : LevelMeshPortal) : Bool :=
  let diff := portal.TransformPosition (self.TransformPosition ⟨0, 0, 0⟩)
  decide (|diff.X| < 1 / 1000) && decide (|diff.Y| < 1 / 1000) && decide (|diff.Z| < 1 / 1000)

/-- The method `IsEqualTransformationPortal`; `abs` is the absolute value of a float. -/
def IsEqualTransformationPortal (self portal : LevelMeshPortal) : Bool :=
  let diff := (portal.TransformPosition ⟨0, 0, 0⟩).sub (self.TransformPosition ⟨0, 0, 0⟩)
  decide (|diff.X| < 1 / 1000) && decide (|diff.Y| < 1 / 1000) && decide (|diff.Z| < 1 / 1000)

/-- The method `IsEqualPortal`. -/
def IsEqualPortal (self portal : LevelMeshPortal) : Bool :=
  decide (self.sourceSectorGroup = portal.sourceSectorGroup) &&
  decide (self.targetSectorGroup = portal.targetSectorGroup) &&
  self.IsEqualTransformationPortal portal

/-- The method `IsInversePortal`. -/
def IsInversePortal (self portal : LevelMeshPortal) : Bool :=
  decide (self.sourceSectorGroup = portal.targetSectorGroup) &&
  decide (self.targetSectorGroup = portal.sourceSectorGroup) &&
  self.IsInverseTransformationPortal portal

end LevelMeshPortal

/-- The functor `RecursivePortalComparator`. -/
def RecursivePortalComparator (a b : LevelMeshPortal) : Bool :=
  !a.IsInversePortal b && decide (memcmp a.transformation.bytes b.transformation.bytes < 0)

/-- The functor `IdenticalPortalComparator`. -/
def IdenticalPortalComparator (a b : LevelMeshPortal) : Bool :=
  !a.IsEqualPortal b && decide (memcmp a.transformation.bytes b.transformation.bytes < 0)

/-! ## Submesh -/

/-- Modelled from the spec: the struct `TraceHit` of hw_collision.h (not among the sources),
the answer of a nearest-hit query: hit fraction along the segment and triangle index,
negative when nothing was hit. -/
structure TraceHit where
  fraction : ℚ
  triangle : Int
deriving DecidableEq

/-- Modelled from the spec: `TriangleMeshShape` of hw_collision.h (not among the sources),
kept as the vertex and index arrays it was built from. -/
structure TriangleMeshShape where
  vertices : List FVector3
  elements : List Nat
deriving DecidableEq

/-- The struct `LevelMeshSurfaceStats::Stats`. -/
structure Stats where
  total : Nat := 0
  dirty : Nat := 0
  sky : Nat := 0
deriving DecidableEq

/-- The struct `LevelMeshSurfaceStats`. -/
structure LevelMeshSurfaceStats where
  surfaces : Stats := {}
  pixels : Stats := {}
deriving DecidableEq

/-- Every counter is a `uint32_t` value. -/
def LevelMeshSurfaceStats.InRange (stats : LevelMeshSurfaceStats) : Prop :=
  stats.surfaces.total < 4294967296 ∧ stats.surfaces.dirty < 4294967296 ∧
    stats.surfaces.sky < 4294967296 ∧ stats.pixels.total < 4294967296 ∧
    stats.pixels.dirty < 4294967296 ∧ stats.pixels.sky < 4294967296

/-- The class `LevelSubmesh`.  `Surfaces` is the list that the virtual `GetSurface` and
`GetSurfaceCount` of the concrete submesh enumerate. -/
structure LevelSubmesh where
  Surfaces : List LevelMeshSurface
  MeshVertices : List FVector3
  MeshVertexUVs : List FVector2
  MeshUVIndex : List Int
  MeshElements : List Nat
  MeshSurfaceIndexes : List Int
  Portals : List LevelMeshPortal
  Collision : TriangleMeshShape
  LMTextureCount : Int := 0
  LMTextureSize : Int := 0
  LMTextureData : List Nat := []
  LightmapSampleDistance : Nat := 16
deriving DecidableEq

namespace LevelSubmesh

/-- The virtual `GetSurface(index)`: the surface at `index`, `none` outside the list. -/
def GetSurface (self : LevelSubmesh) (index : Int) : Option LevelMeshSurface :=
  elemAt self.Surfaces index

/-- The virtual `GetSurfaceCount()`. -/
def GetSurfaceCount (self : LevelSubmesh) : Nat := self.Surfaces.length

/-- The body of the loop of `GatherSurfacePixelStats` for one surface. -/
def gatherOne (surface : LevelMeshSurface) (stats : LevelMeshSurfaceStats) :
    LevelMeshSurfaceStats :=
  let area := surface.Area
  let stats1 : LevelMeshSurfaceStats :=
    { stats with pixels := { stats.pixels with total := (stats.pixels.total + area) % 4294967296 } }
  let stats2 : LevelMeshSurfaceStats :=
    if surface.needsUpdate then
      { surfaces := { stats1.surfaces with dirty := (stats1.surfaces.dirty + 1) % 4294967296 },
        pixels := { stats1.pixels with dirty := (stats1.pixels.dirty + area) % 4294967296 } }
    else stats1
  if surface.bSky then
    { surfaces := { stats2.surfaces with sky := (stats2.surfaces.sky + 1) % 4294967296 },
      pixels := { stats2.pixels with sky := (stats2.pixels.sky + area) % 4294967296 } }
  else stats2

/-- The loop of `GatherSurfacePixelStats` over the surfaces in enumeration order. -/
def gatherLoop : List LevelMeshSurface → LevelMeshSurfaceStats → LevelMeshSurfaceStats
  | [], stats => stats
  | surface :: rest, stats => gatherLoop rest (gatherOne surface stats)

/-- The method `LevelSubmesh::GatherSurfacePixelStats(stats)`: the submesh after the call and
the updated statistics. -/
def GatherSurfacePixelStats (self : LevelSubmesh) (stats : LevelMeshSurfaceStats) :
    LevelSubmesh × LevelMeshSurfaceStats :=
  let count := self.GetSurfaceCount
  let stats1 := gatherLoop self.Surfaces stats
  (self, { stats1 with
    surfaces := { stats1.surfaces with total := (stats1.surfaces.total + count) % 4294967296 } })

/-- The private method `ToUV`. -/
def ToUV (vert : FVector3) (targetSurface : LevelMeshSurface) : FVector2 :=
  let localPos := vert.sub targetSurface.translateWorldToLocal
  let u := (1 + localPos.dot targetSurface.projLocalToU) /
    ((targetSurface.AtlasTile.Width + 2 : Int) : ℚ)
  let v := (1 + localPos.dot targetSurface.projLocalToV) /
    ((targetSurface.AtlasTile.Height + 2 : Int) : ℚ)
  ⟨u, v⟩

/-- The test of the inner loop of the first pass of `BuildSmoothingGroups`: is `surface` in
the plane of the smoothing group `g`? -/
def groupMatches (g : LevelMeshSmoothingGroup) (surface : LevelMeshSurface) : Bool :=
  decide (surface.sectorGroup = g.sectorGroup) &&
  (let direction := g.plane.XYZ.dot surface.plane.XYZ
   decide (direction ≥ 9999 / 10000) && decide (direction ≤ 1001 / 1000) &&
   (let point := surface.plane.XYZ.scale surface.plane.W
    let planeDistance := g.plane.XYZ.dot point - g.plane.W
    let dist := |planeDistance|
    decide (dist ≤ 1 / 100)))

/-- The inner loop of the first pass: scan the groups from index `j` on and stop at the
first one that matches; `-1` when none does. -/
def scanGroups (surface : LevelMeshSurface) : List LevelMeshSmoothingGroup → Nat → Int
  | [], _ => -1
  | g :: rest, j => if groupMatches g surface then (j : Int) else scanGroups surface rest (j + 1)

/-- The statement `SmoothingGroups[k].surfaces.push_back(surface)` for the surface `i`. -/
def pushSurface : List LevelMeshSmoothingGroup → Nat → Nat → List LevelMeshSmoothingGroup
  | [], _, _ => []
  | g :: gs, 0, i => { g with surfaces := g.surfaces ++ [i] } :: gs
  | g :: gs, k + 1, i => g :: pushSurface gs k i

/-- The first loop of `BuildSmoothingGroups`, from surface number `i` on, with the groups
built so far: the surfaces with their `smoothingGroupIndex` set, and the final groups. -/
def assignGroups : List LevelMeshSurface → Nat → List LevelMeshSmoothingGroup →
    List LevelMeshSurface × List LevelMeshSmoothingGroup
  | [], _, groups => ([], groups)
  | surface :: rest, i, groups =>
    let found := scanGroups surface groups 0
    let smoothingGroupIndex : Int := if found = -1 then (groups.length : Int) else found
    let groups1 :=
      if found = -1 then
        groups ++ [{ plane := surface.plane, sectorGroup := surface.sectorGroup }]
      else groups
    let groups2 := pushSurface groups1 smoothingGroupIndex.toNat i
    let r := assignGroups rest (i + 1) groups2
    ({ surface with smoothingGroupIndex := smoothingGroupIndex } :: r.1, r.2)

/-- The value of the variable `smoothingGroupIndex` of the first loop when the surface is
stored: the group found by the scan, or the number of groups when none was found. -/
def groupIndexFor (surface : LevelMeshSurface) (groups : List LevelMeshSmoothingGroup) : Int :=
  if scanGroups surface groups 0 = -1 then (groups.length : Int) else scanGroups surface groups 0

/-- The array `SmoothingGroups` after the body of the first loop has run for surface
number `i`. -/
def stepGroups (surface : LevelMeshSurface) (i : Nat) (groups : List LevelMeshSmoothingGroup) :
    List LevelMeshSmoothingGroup :=
  pushSurface
    (if scanGroups surface groups 0 = -1 then
      groups ++ [{ plane := surface.plane, sectorGroup := surface.sectorGroup }]
    else groups)
    (groupIndexFor surface groups).toNat i

/-- The member list of group number `m`, empty when there is no such group. -/
def surfacesAt (groups : List LevelMeshSmoothingGroup) (m : Nat) : List Nat :=
  match groups.get? m with
  | some g => g.surfaces
  | none => []

/-- The numbers, counted from `i`, of the surfaces of a list whose `smoothingGroupIndex`
is `m`, in increasing order. -/
def membersFrom : List LevelMeshSurface → Nat → Nat → List Nat
  | [], _, _ => []
  | s :: rest, i, m =>
    if s.smoothingGroupIndex = (m : Int) then i :: membersFrom rest (i + 1) m
    else membersFrom rest (i + 1) m

/-- The box spanned by the two points `a` and `b` has a point in common with the unit
square `[0, 1] x [0, 1]`. -/
def boxOverlapsUnitSquare (a b : FVector2) : Prop :=
  min a.X b.X ≤ 1 ∧ 0 ≤ max a.X b.X ∧ min a.Y b.Y ≤ 1 ∧ 0 ≤ max a.Y b.Y

/-- The test of the inner loop of the second pass: is the group member number `p` pushed on
the tile list of the target surface number `i`? -/
def keepsTileSurface (all : List LevelMeshSurface) (i : Nat) (targetSurface : LevelMeshSurface)
    (p : Nat) : Bool :=
  match all.get? p with
  | none => false
  | some surface =>
    let minUV := ToUV surface.bounds.min targetSurface
    let maxUV := ToUV surface.bounds.max targetSurface
    !(decide (p ≠ i) &&
      (decide (maxUV.X < 0) || decide (maxUV.Y < 0) || decide (minUV.X > 1) ||
        decide (minUV.Y > 1)))

/-- The inner loop of the second pass for the target surface number `i`: its new
`tileSurfaces`. -/
def buildTileSurfaces (all : List LevelMeshSurface) (groups : List LevelMeshSmoothingGroup)
    (i : Nat) (targetSurface : LevelMeshSurface) : List Nat :=
  match elemAt groups targetSurface.smoothingGroupIndex with
  | none => []
  | some g => g.surfaces.filter (keepsTileSurface all i targetSurface)

/-- The second loop of `BuildSmoothingGroups`, from surface number `i` on; `all` is the whole
surface list (the loop writes `tileSurfaces` only and never reads it). -/
def assignTiles (all : List LevelMeshSurface) (groups : List LevelMeshSmoothingGroup) :
    List LevelMeshSurface → Nat → List LevelMeshSurface
  | [], _ => []
  | targetSurface :: rest, i =>
    { targetSurface with tileSurfaces := buildTileSurfaces all groups i targetSurface } ::
      assignTiles all groups rest (i + 1)

/-- The transient `SmoothingGroups` array at the end of `BuildSmoothingGroups`. -/
def smoothingGroups (self : LevelSubmesh) : List LevelMeshSmoothingGroup :=
  (assignGroups self.Surfaces 0 []).2

/-- The method `LevelSubmesh::BuildSmoothingGroups`. -/
def BuildSmoothingGroups (self : LevelSubmesh) : LevelSubmesh :=
  let pass1 := assignGroups self.Surfaces 0 []
  { self with Surfaces := assignTiles pass1.1 pass1.2 pass1.1 0 }

/-- The method `UpdateCollision`: the collision shape is rebuilt from the vertex and the
index array. -/
def UpdateCollision (self : LevelSubmesh) : LevelSubmesh :=
  { self with Collision := ⟨self.MeshVertices, self.MeshElements⟩ }

/-- The constructor `LevelSubmesh::LevelSubmesh()`: the default portal, the twelve vertices
of the default mesh, as many texture coordinates (`Resize`, their values are not set by the
source and are zero here), the elements `0 .. 11`, and the collision shape built from them.
The base class has no surfaces (`GetSurfaceCount` returns 0). -/
def construct : LevelSubmesh :=
  let portal : LevelMeshPortal := {}
  let minval : ℚ := -100001
  let maxval : ℚ := -100000
  let MeshVertices : List FVector3 :=
    [⟨minval, minval, minval⟩, ⟨maxval, minval, minval⟩, ⟨maxval, maxval, minval⟩,
     ⟨minval, minval, minval⟩, ⟨minval, maxval, minval⟩, ⟨maxval, maxval, minval⟩,
     ⟨minval, minval, maxval⟩, ⟨maxval, minval, maxval⟩, ⟨maxval, maxval, maxval⟩,
     ⟨minval, minval, maxval⟩, ⟨minval, maxval, maxval⟩, ⟨maxval, maxval, maxval⟩]
  UpdateCollision
    { Surfaces := [], MeshVertices := MeshVertices,
      MeshVertexUVs := List.replicate MeshVertices.length ⟨0, 0⟩, MeshUVIndex := [],
      MeshElements := List.range (3 * 4), MeshSurfaceIndexes := [], Portals := [portal],
      Collision := ⟨[], []⟩ }

end LevelSubmesh

/-! ## Mesh and tracer -/

/-- The class `LevelMesh`. -/
structure LevelMesh where
  StaticMesh : LevelSubmesh
  DynamicMesh : LevelSubmesh
  SunDirection : FVector3 := ⟨0, 0, -1⟩
  SunColor : FVector3 := ⟨0, 0, 0⟩
deriving DecidableEq

/-- What `Trace` returns: `nullptr`, the surface `GetSurface(index)` of the static
(`isStatic = true`) or dynamic submesh, or no defined value because an array was read
outside its bounds. -/
inductive TraceResult where
  | null
  | surface (isStatic : Bool) (index : Int)
  | outOfRange
deriving DecidableEq

/-- The variables the loop of `Trace` carries from one iteration to the next. -/
structure TraceState where
  origin : FVector3
  direction : FVector3
  maxDist : ℚ
deriving DecidableEq

/-- One execution of the loop body of `Trace`: it either leaves the loop with a result or
goes on with new variables. -/
inductive TraceStep where
  | done (result : TraceResult)
  | next (state : TraceState)
deriving DecidableEq

namespace LevelMesh

/-- The method `LevelMesh::GatherSurfacePixelStats()`. -/
def GatherSurfacePixelStats (self : LevelMesh) : LevelMeshSurfaceStats :=
  let stats : LevelMeshSurfaceStats := {}
  let r0 := self.StaticMesh.GatherSurfacePixelStats stats
  let r1 := self.DynamicMesh.GatherSurfacePixelStats r0.2
  r1.2

/-- The loop body of `Trace` from the test `hit.triangle < 0` on, for the submesh `hitmesh`
(the static one when `isStatic`) and its hit `hit` that the body has chosen.  The source binds
the reference `hitmesh->Portals[portal]` before the distance test and reads through it only
in the two transform calls, which is where the array read is placed here. -/
def traceHit (hitmesh : LevelSubmesh) (isStatic : Bool) (hit : TraceHit) (st : TraceState) :
    TraceStep :=
  if hit.triangle < 0 then TraceStep.done TraceResult.null
  else
    match elemAt hitmesh.MeshSurfaceIndexes hit.triangle with
    | none => TraceStep.done TraceResult.outOfRange
    | some index =>
      match hitmesh.GetSurface index with
      | none => TraceStep.done TraceResult.outOfRange
      | some hitSurface =>
        let portal := hitSurface.portalIndex
        if portal = 0 then TraceStep.done (TraceResult.surface isStatic index)
        else
          let travelDist := hit.fraction * st.maxDist + 2
          if travelDist ≥ st.maxDist then TraceStep.done (TraceResult.surface isStatic index)
          else
            match elemAt hitmesh.Portals portal with
            | none => TraceStep.done TraceResult.outOfRange
            | some transformation =>
              TraceStep.next
                { origin := transformation.TransformPosition
                    (st.origin.add (st.direction.scale travelDist)),
                  direction := transformation.TransformRotation st.direction,
                  maxDist := st.maxDist - travelDist }

/-- The submesh and hit that the loop body of `Trace` acts on: the static ones exactly when
`hit0.fraction < hit1.fraction`, otherwise the dynamic ones. -/
def chosenHit (self : LevelMesh) (hit0 hit1 : TraceHit) : LevelSubmesh × Bool × TraceHit :=
  (if hit0.fraction < hit1.fraction then self.StaticMesh else self.DynamicMesh,
   decide (hit0.fraction < hit1.fraction),
   if hit0.fraction < hit1.fraction then hit0 else hit1)

/-- The body of the `while (true)` loop of `Trace`.  The nearest-hit query
`TriangleMeshShape::find_first_hit` of hw_collision.h is the parameter `find_first_hit`. -/
def traceBody (find_first_hit : TriangleMeshShape → FVector3 → FVector3 → TraceHit)
    (self : LevelMesh) (st : TraceState) : TraceStep :=
  let endp := st.origin.add (st.direction.scale st.maxDist)
  let hit0 := find_first_hit self.StaticMesh.Collision st.origin endp
  let hit1 := find_first_hit self.DynamicMesh.Collision st.origin endp
  let chosen := chosenHit self hit0 hit1
  traceHit chosen.1 chosen.2.1 chosen.2.2 st

/-- The submesh, its static flag and the hit that the loop body acts on in the iteration
that starts from `st`. -/
def iterationHit (find_first_hit : TriangleMeshShape → FVector3 → FVector3 → TraceHit)
    (self : LevelMesh) (st : TraceState) : LevelSubmesh × Bool × TraceHit :=
  chosenHit self
    (find_first_hit self.StaticMesh.Collision st.origin
      (st.origin.add (st.direction.scale st.maxDist)))
    (find_first_hit self.DynamicMesh.Collision st.origin
      (st.origin.add (st.direction.scale st.maxDist)))

/-- The `while (true)` loop of `Trace` run for at most `fuel` executions of its body: the
value returned and the number of times the body ran, or `none` when the loop is still
running after `fuel` executions. -/
def traceLoop (find_first_hit : TriangleMeshShape → FVector3 → FVector3 → TraceHit)
    (self : LevelMesh) : Nat → TraceState → Option (TraceResult × Nat)
  | 0, _ => none
  | fuel + 1, st =>
    match traceBody find_first_hit self st with
    | TraceStep.done result => some (result, 1)
    | TraceStep.next st1 =>
      (traceLoop find_first_hit self fuel st1).map (fun r => (r.1, r.2 + 1))

/-- The method `LevelMesh::Trace(start, direction, maxDist)`, its loop bounded by `fuel`. -/
def Trace (find_first_hit : TriangleMeshShape → FVector3 → FVector3 → TraceHit)
    (self : LevelMesh) (start direction : FVector3) (maxDist : ℚ) (fuel : Nat) :
    Option (TraceResult × Nat) :=
  traceLoop find_first_hit self fuel
    { origin := start, direction := direction, maxDist := max (maxDist - 10) 0 }

/-- The loop body of `Trace` from the test `hit.triangle < 0` on, as `traceHit`, with the
float operations rounded to binary32: `travelDist = hit.fraction * maxDist + 2.0f` is a
rounded product and a rounded sum, `maxDist -= travelDist` a rounded difference.  The
results of `TransformPosition` and `TransformRotation` are rounded once per component
(matrix.h is not among the sources). -/
def traceHit32 (hitmesh : LevelSubmesh) (isStatic : Bool) (hit : TraceHit) (st : TraceState) :
    TraceStep :=
  if hit.triangle < 0 then TraceStep.done TraceResult.null
  else
    match elemAt hitmesh.MeshSurfaceIndexes hit.triangle with
    | none => TraceStep.done TraceResult.outOfRange
    | some index =>
      match hitmesh.GetSurface index with
      | none => TraceStep.done TraceResult.outOfRange
      | some hitSurface =>
        let portal := hitSurface.portalIndex
        if portal = 0 then TraceStep.done (TraceResult.surface isStatic index)
        else
          let travelDist := round32 (round32 (hit.fraction * st.maxDist) + 2)
          if travelDist ≥ st.maxDist then TraceStep.done (TraceResult.surface isStatic index)
          else
            match elemAt hitmesh.Portals portal with
            | none => TraceStep.done TraceResult.outOfRange
            | some transformation =>
              TraceStep.next
                { origin := (transformation.TransformPosition
                    (st.origin.mulAdd32 st.direction travelDist)).round32,
                  direction := (transformation.TransformRotation st.direction).round32,
                  maxDist := round32 (st.maxDist - travelDist) }

/-- The body of the `while (true)` loop of `Trace`, as `traceBody`, in binary32. -/
def traceBody32 (find_first_hit : TriangleMeshShape → FVector3 → FVector3 → TraceHit)
    (self : LevelMesh) (st : TraceState) : TraceStep :=
  let endp := st.origin.mulAdd32 st.direction st.maxDist
  let hit0 := find_first_hit self.StaticMesh.Collision st.origin endp
  let hit1 := find_first_hit self.DynamicMesh.Collision st.origin endp
  let chosen := chosenHit self hit0 hit1
  traceHit32 chosen.1 chosen.2.1 chosen.2.2 st

/-- The `while (true)` loop of `Trace`, as `traceLoop`, in binary32. -/
def traceLoop32 (find_first_hit : TriangleMeshShape → FVector3 → FVector3 → TraceHit)
    (self : LevelMesh) : Nat → TraceState → Option (TraceResult × Nat)
  | 0, _ => none
  | fuel + 1, st =>
    match traceBody32 find_first_hit self st with
    | TraceStep.done result => some (result, 1)
    | TraceStep.next st1 =>
      (traceLoop32 find_first_hit self fuel st1).map (fun r => (r.1, r.2 + 1))

/-- The method `LevelMesh::Trace(start, direction, maxDist)` in binary32, its loop bounded
by `fuel`; `maxDist` is a binary32 value. -/
def Trace32 (find_first_hit : TriangleMeshShape → FVector3 → FVector3 → TraceHit)
    (self : LevelMesh) (start direction : FVector3) (maxDist : ℚ) (fuel : Nat) :
    Option (TraceResult × Nat) :=
  traceLoop32 find_first_hit self fuel
    { origin := start, direction := direction, maxDist := max (round32 (maxDist - 10)) 0 }

/-- A default-constructed `LevelMesh`: both submeshes are freshly constructed. -/
def construct : LevelMesh :=
  { StaticMesh := LevelSubmesh.construct, DynamicMesh := LevelSubmesh.construct }

/-- The nearest-hit contract of the collision shape that the tracer relies on: a query that
reports a hit (a non-negative triangle) returns a fraction in `[0, 1]`. -/
def FractionsInUnitInterval
    (find_first_hit : TriangleMeshShape → FVector3 → FVector3 → TraceHit) : Prop :=
  ∀ shape origin endp, 0 ≤ (find_first_hit shape origin endp).triangle →
    0 ≤ (find_first_hit shape origin endp).fraction ∧
      (find_first_hit shape origin endp).fraction ≤ 1

end LevelMesh

/-! ## Predicates used in the statements about the collision shape -/

/-- The three corners of triangle number `t` of a shape: the vertices that the elements
`3 t`, `3 t + 1` and `3 t + 2` name. -/
def TriangleMeshShape.triangleAt (shape : TriangleMeshShape) (t : Int) :
    Option (FVector3 × FVector3 × FVector3) :=
  match elemAt shape.elements (3 * t), elemAt shape.elements (3 * t + 1),
      elemAt shape.elements (3 * t + 2) with
  | some a, some b, some c =>
    match shape.vertices.get? a, shape.vertices.get? b, shape.vertices.get? c with
    | some v0, some v1, some v2 => some (v0, v1, v2)
    | _, _, _ => none
  | _, _, _ => none

/-- The triangle with corners `v0 v1 v2` has no area. -/
def TriangleIsDegenerate (v0 v1 v2 : FVector3) : Prop :=
  (v1.sub v0).cross (v2.sub v0) = ⟨0, 0, 0⟩

/-- The segment from `o` to `e` has a point in common with the triangle `v0 v1 v2`. -/
def SegmentMeetsTriangle (o e v0 v1 v2 : FVector3) : Prop :=
  ∃ t a b c : ℚ, 0 ≤ t ∧ t ≤ 1 ∧ 0 ≤ a ∧ 0 ≤ b ∧ 0 ≤ c ∧ a + b + c = 1 ∧
    o.add ((e.sub o).scale t) = ((v0.scale a).add (v1.scale b)).add (v2.scale c)

/-- A nearest-hit query reports only triangles of the shape that the queried segment
actually intersects. -/
def ReportsOnlyIntersected
    (find_first_hit : TriangleMeshShape → FVector3 → FVector3 → TraceHit) : Prop :=
  ∀ shape o e, 0 ≤ (find_first_hit shape o e).triangle →
    ∃ v0 v1 v2, shape.triangleAt (find_first_hit shape o e).triangle = some (v0, v1, v2) ∧
      SegmentMeetsTriangle o e v0 v1 v2

/-- The bottom row of the matrix is `0 0 0 1`: the transform is affine. -/
def VSMatrix.IsAffine (p : VSMatrix) : Prop :=
  p.m3.toRat = 0 ∧ p.m7.toRat = 0 ∧ p.m11.toRat = 0 ∧ p.m15.toRat = 1

/-- The matrix `q` is the exact inverse of `p`: each undoes the other on every vector. -/
def VSMatrix.IsInverseOf (q p : VSMatrix) : Prop :=
  ∀ v : FVector4, q.mulVec (p.mulVec v) = v ∧ p.mulVec (q.mulVec v) = v

/-! ## Concrete data for the worked instances -/

namespace Sample

/-- A plain wall surface in the plane `z = 0`. -/
def wall : LevelMeshSurface :=
  { numVerts := 4, startVertIndex := 0, startUvIndex := 0, startElementIndex := 0,
    numElements := 6, plane := ⟨0, 0, 1, 0⟩, bSky := false,
    bounds := ⟨⟨0, 0, 0⟩, ⟨1, 1, 0⟩⟩ }

/-- A portal surface: it refers to portal number 1 of its submesh. -/
def gate : LevelMeshSurface := { wall with portalIndex := 1 }

/-- The word of `100.0f`. -/
def hundred : Float32 := ⟨false, 133, 4718592⟩

/-- The transform that translates by `(100, 0, 0)`. -/
def translate100 : VSMatrix := { VSMatrix.identity with m12 := hundred }

/-- The portal a default-constructed `LevelMeshPortal` is. -/
def defaultPortal : LevelMeshPortal := {}

/-- A portal from sector group 0 to sector group 1 that translates by `(100, 0, 0)`. -/
def shift100 : LevelMeshPortal :=
  { transformation := translate100, sourceSectorGroup := 0, targetSectorGroup := 1 }

/-- A submesh with the wall (triangle 0) and the gate (triangle 1). -/
def submesh : LevelSubmesh :=
  { Surfaces := [wall, gate], MeshVertices := [], MeshVertexUVs := [], MeshUVIndex := [],
    MeshElements := [], MeshSurfaceIndexes := [0, 1],
    Portals := [defaultPortal, shift100],
    Collision := ⟨[], [0]⟩ }

/-- A submesh without surfaces. -/
def bare : LevelSubmesh :=
  { Surfaces := [], MeshVertices := [], MeshVertexUVs := [], MeshUVIndex := [],
    MeshElements := [], MeshSurfaceIndexes := [], Portals := [defaultPortal],
    Collision := ⟨[], []⟩ }

/-- A mesh whose static part is `submesh` and whose dynamic part is `bare`. -/
def mesh : LevelMesh := { StaticMesh := submesh, DynamicMesh := bare }

/-- A nearest-hit query that reports the gate at fraction `f` for the static shape and no hit
(fraction 1, triangle -1) for the dynamic one. -/
def gateAt (f : ℚ) : TriangleMeshShape → FVector3 → FVector3 → TraceHit :=
  fun shape _ _ => if shape.elements = [0] then ⟨f, 1⟩ else ⟨1, -1⟩

/-- A wall like `wall` whose first projection axis points against the x axis. -/
def mirrored : LevelMeshSurface :=
  { wall with projLocalToU := ⟨-1, 0, 0⟩, projLocalToV := ⟨0, 1, 0⟩ }

/-- A surface in another plane, `z = 8` seen from below. -/
def ceiling : LevelMeshSurface := { wall with plane := ⟨0, 0, -1, -8⟩ }

/-- A surface in the plane of `wall` that reaches from `x = 0` to `x = 2`, with a tile of
3 by 5 texels that needs no update and is sky. -/
def strip : LevelMeshSurface :=
  { wall with
    bounds := ⟨⟨0, 0, 0⟩, ⟨2, 0, 0⟩⟩, AtlasTile := { Width := 3, Height := 5 },
    needsUpdate := false, bSky := true }

/-- A submesh with the three surfaces `mirrored`, `ceiling` and `strip`. -/
def tiles : LevelSubmesh :=
  { Surfaces := [mirrored, ceiling, strip], MeshVertices := [], MeshVertexUVs := [],
    MeshUVIndex := [], MeshElements := [], MeshSurfaceIndexes := [0, 1, 2],
    Portals := [defaultPortal], Collision := ⟨[], []⟩ }

/-- A nearest-hit query that never reports a hit. -/
def noHit : TriangleMeshShape → FVector3 → FVector3 → TraceHit :=
  fun _ _ _ => ⟨1, -1⟩

/-- The word of `-100.0f`. -/
def minusHundred : Float32 := ⟨true, 133, 4718592⟩

/-- The return portal of `shift100`: it translates by `(-100, 0, 0)` from group 1 to 0. -/
def return100 : LevelMeshPortal :=
  { transformation := { VSMatrix.identity with m12 := minusHundred },
    sourceSectorGroup := 1, targetSectorGroup := 0 }

/-- The word of `-1.0f`. -/
def minusOne : Float32 := ⟨true, 127, 0⟩

/-- A portal inside sector group 0 that turns by a quarter about the z axis. -/
def quarterTurn : LevelMeshPortal :=
  { transformation :=
      { VSMatrix.identity with
        m0 := Float32.zero, m1 := Float32.one, m4 := minusOne, m5 := Float32.zero },
    sourceSectorGroup := 0, targetSectorGroup := 0 }

/-- The word of `2 ^ (-63)`. -/
def tiny : Float32 := ⟨false, 64, 0⟩

/-- The word of `2 ^ (-11)`, about `0.000488`. -/
def small : Float32 := ⟨false, 116, 0⟩

/-- The word of `1.5 * 2 ^ (-11)`, about `0.000732`. -/
def smallish : Float32 := ⟨false, 116, 4194304⟩

/-- The word of `1.25 * 2 ^ (-10)`, about `0.00122`. -/
def smaller : Float32 := ⟨false, 117, 2097152⟩

/-- The identity transform from group 1 to group 2. -/
def portalA : LevelMeshPortal := { sourceSectorGroup := 1, targetSectorGroup := 2 }

/-- A translation by `2 ^ (-63)` along x inside group 7. -/
def portalB : LevelMeshPortal :=
  { transformation := { VSMatrix.identity with m12 := tiny },
    sourceSectorGroup := 7, targetSectorGroup := 7 }

/-- A translation by `2 ^ (-11)` along x from group 2 to group 1. -/
def portalC : LevelMeshPortal :=
  { transformation := { VSMatrix.identity with m12 := small },
    sourceSectorGroup := 2, targetSectorGroup := 1 }

/-- A translation by `2 ^ (-11)` along x from group 1 to group 2. -/
def portalD : LevelMeshPortal :=
  { transformation := { VSMatrix.identity with m12 := small },
    sourceSectorGroup := 1, targetSectorGroup := 2 }

/-- The identity transform from group 2 to group 1. -/
def portalE : LevelMeshPortal := { sourceSectorGroup := 2, targetSectorGroup := 1 }

/-- A translation by `2 ^ (-63)` along x from group 1 to group 2. -/
def portalF : LevelMeshPortal :=
  { transformation := { VSMatrix.identity with m12 := tiny },
    sourceSectorGroup := 1, targetSectorGroup := 2 }

/-- The identity transform from group 3 to group 4. -/
def portalG : LevelMeshPortal := { sourceSectorGroup := 3, targetSectorGroup := 4 }

/-- A translation by `1.5 * 2 ^ (-11)` along x from group 1 to group 2. -/
def portalH : LevelMeshPortal :=
  { transformation := { VSMatrix.identity with m12 := smallish },
    sourceSectorGroup := 1, targetSectorGroup := 2 }

/-- A translation by `1.25 * 2 ^ (-10)` along x from group 1 to group 2. -/
def portalK : LevelMeshPortal :=
  { transformation := { VSMatrix.identity with m12 := smaller },
    sourceSectorGroup := 1, targetSectorGroup := 2 }

end Sample

/-! ## Theorems -/

namespace LevelMesh

/-- The loop body is `traceHit` at the hit of the iteration. -/
theorem traceBody_eq_traceHit
    (find_first_hit : TriangleMeshShape → FVector3 → FVector3 → TraceHit) (self : LevelMesh)
    (st : TraceState) :
    traceBody find_first_hit self st =
      traceHit (iterationHit find_first_hit self st).1 (iterationHit find_first_hit self st).2.1
        (iterationHit find_first_hit self st).2.2 st := rfl

/-- C2. In an iteration whose chosen hit is a reported hit that resolves, through the hit
submesh's `MeshSurfaceIndexes`, to the surface `S` at `index`: if `S.portalIndex` is 0, or
if it is nonzero and `fraction * remaining + 2 >= remaining`, the body leaves the loop with
that surface of that submesh, so `Trace` returns it from this iteration (one body
execution, no transformed ray). -/
theorem Trace_returns_hit_surface
    (find_first_hit : TriangleMeshShape → FVector3 → FVector3 → TraceHit) (self : LevelMesh)
    (st : TraceState) (index : Int) (S : LevelMeshSurface)
    (hhit : 0 ≤ (iterationHit find_first_hit self st).2.2.triangle)
    (hidx : elemAt (iterationHit find_first_hit self st).1.MeshSurfaceIndexes
      (iterationHit find_first_hit self st).2.2.triangle = some index)
    (hS : (iterationHit find_first_hit self st).1.GetSurface index = some S)
    (hstop : S.portalIndex = 0 ∨
      (S.portalIndex ≠ 0 ∧
        (iterationHit find_first_hit self st).2.2.fraction * st.maxDist + 2 ≥ st.maxDist)) :
    traceBody find_first_hit self st =
        TraceStep.done (TraceResult.surface (iterationHit find_first_hit self st).2.1 index) ∧
      ∀ fuel, traceLoop find_first_hit self (fuel + 1) st =
        some (TraceResult.surface (iterationHit find_first_hit self st).2.1 index, 1) := by
  have hbody : traceBody find_first_hit self st =
      TraceStep.done (TraceResult.surface (iterationHit find_first_hit self st).2.1 index) := by
    rw [traceBody_eq_traceHit]
    unfold traceHit
    rw [if_neg (not_lt.mpr hhit), hidx]
    simp only [hS]
    rcases hstop with h0 | ⟨hne, hge⟩
    · rw [if_pos h0]
    · rw [if_neg hne, if_pos hge]
  refine ⟨hbody, ?_⟩
  intro fuel
  unfold traceLoop
  rw [hbody]

end LevelMesh

/-- `memcmp` with its arguments exchanged gives the opposite number. -/
theorem memcmp_swap : ∀ a b : List Nat, memcmp b a = -memcmp a b
  | [], [] => by simp [memcmp]
  | [], _ :: _ => by simp [memcmp]
  | _ :: _, [] => by simp [memcmp]
  | x :: xs, y :: ys => by
    unfold memcmp
    by_cases h : x = y
    · subst h
      simp [memcmp_swap xs ys]
    · have h2 : ¬ y = x := fun e => h e.symm
      simp [h, h2]

/-- `memcmp` of a sequence with itself is zero. -/
theorem memcmp_self : ∀ a : List Nat, memcmp a a = 0
  | [] => by simp [memcmp]
  | x :: xs => by simp [memcmp, memcmp_self xs]

/-- On sequences of one length `memcmp` is zero only for equal sequences. -/
theorem memcmp_eq_zero : ∀ a b : List Nat, a.length = b.length → memcmp a b = 0 → a = b
  | [], [], _, _ => rfl
  | [], _ :: _, h, _ => by simp at h
  | _ :: _, [], h, _ => by simp at h
  | x :: xs, y :: ys, h, h0 => by
    unfold memcmp at h0
    by_cases hxy : x = y
    · subst hxy
      simp only [if_true] at h0
      rw [memcmp_eq_zero xs ys (by simpa using h) h0]
    · simp only [hxy, if_false] at h0
      omega

/-- A word is determined by its four bytes. -/
theorem Float32.word_bytes_injective (f g : Float32) (h : f.bytes = g.bytes) : f = g := by
  obtain ⟨fs, ⟨fe, hfe⟩, ⟨ff, hff⟩⟩ := f
  obtain ⟨gs, ⟨ge, hge⟩, ⟨gf, hgf⟩⟩ := g
  simp only [Float32.bytes, Float32.bits, List.cons.injEq, and_true] at h
  obtain ⟨h0, h1, h2, h3⟩ := h
  cases fs <;> cases gs <;> simp only [if_true, if_false, Bool.false_eq_true] at h0 h1 h2 h3 <;>
    simp only [Float32.mk.injEq, Fin.mk.injEq, true_and, false_and, Bool.false_eq_true,
      Bool.true_eq_false] <;> omega

/-- A word has four bytes. -/
theorem Float32.word_bytes_length (f : Float32) : f.bytes.length = 4 := rfl

/-- A matrix has 64 bytes. -/
theorem VSMatrix.matrix_bytes_length (m : VSMatrix) : m.bytes.length = 64 := by
  simp [VSMatrix.bytes, Float32.word_bytes_length]

/-- Two lists of four bytes in front of equal-length tails. -/
theorem append_four_inj (f g : Float32) (r s : List Nat) (h : f.bytes ++ r = g.bytes ++ s) :
    f = g ∧ r = s := by
  have := List.append_inj h (by simp [Float32.word_bytes_length])
  exact ⟨Float32.word_bytes_injective f g this.1, this.2⟩

/-- A matrix is determined by its 64 bytes. -/
theorem VSMatrix.matrix_bytes_injective (a b : VSMatrix) (h : a.bytes = b.bytes) : a = b := by
  obtain ⟨a0, a1, a2, a3, a4, a5, a6, a7, a8, a9, a10, a11, a12, a13, a14, a15⟩ := a
  obtain ⟨b0, b1, b2, b3, b4, b5, b6, b7, b8, b9, b10, b11, b12, b13, b14, b15⟩ := b
  simp only [VSMatrix.bytes, List.append_assoc] at h
  obtain ⟨e0, h⟩ := append_four_inj _ _ _ _ h
  obtain ⟨e1, h⟩ := append_four_inj _ _ _ _ h
  obtain ⟨e2, h⟩ := append_four_inj _ _ _ _ h
  obtain ⟨e3, h⟩ := append_four_inj _ _ _ _ h
  obtain ⟨e4, h⟩ := append_four_inj _ _ _ _ h
  obtain ⟨e5, h⟩ := append_four_inj _ _ _ _ h
  obtain ⟨e6, h⟩ := append_four_inj _ _ _ _ h
  obtain ⟨e7, h⟩ := append_four_inj _ _ _ _ h
  obtain ⟨e8, h⟩ := append_four_inj _ _ _ _ h
  obtain ⟨e9, h⟩ := append_four_inj _ _ _ _ h
  obtain ⟨e10, h⟩ := append_four_inj _ _ _ _ h
  obtain ⟨e11, h⟩ := append_four_inj _ _ _ _ h
  obtain ⟨e12, h⟩ := append_four_inj _ _ _ _ h
  obtain ⟨e13, h⟩ := append_four_inj _ _ _ _ h
  obtain ⟨e14, h⟩ := append_four_inj _ _ _ _ h
  have e15 := Float32.word_bytes_injective _ _ h
  subst e0 e1 e2 e3 e4 e5 e6 e7 e8 e9 e10 e11 e12 e13 e14 e15
  rfl

/-- The word `Float32.one` denotes 1. -/
theorem Float32.toRat_one : Float32.one.toRat = 1 := by
  simp [Float32.toRat, Float32.one, Fin.coe_ofNat_eq_mod]
  norm_num

/-- The word `Float32.zero` denotes 0. -/
theorem Float32.toRat_zero : Float32.zero.toRat = 0 := by
  simp [Float32.toRat, Float32.zero]

/-- The word `Sample.hundred` denotes 100. -/
theorem Sample.toRat_hundred : Sample.hundred.toRat = 100 := by
  simp [Float32.toRat, Sample.hundred, Fin.coe_ofNat_eq_mod]
  norm_num

/-- The word `Sample.minusHundred` denotes -100. -/
theorem Sample.toRat_minusHundred : Sample.minusHundred.toRat = -100 := by
  simp [Float32.toRat, Sample.minusHundred, Fin.coe_ofNat_eq_mod]
  norm_num

/-- The word `Sample.minusOne` denotes -1. -/
theorem Sample.toRat_minusOne : Sample.minusOne.toRat = -1 := by
  simp [Float32.toRat, Sample.minusOne, Fin.coe_ofNat_eq_mod]
  norm_num

/-- The word `Sample.tiny` denotes `2 ^ (-63)`. -/
theorem Sample.toRat_tiny : Sample.tiny.toRat = 1 / 2 ^ 63 := by
  simp [Float32.toRat, Sample.tiny, Fin.coe_ofNat_eq_mod]
  norm_num

/-- The word `Sample.small` denotes `2 ^ (-11)`. -/
theorem Sample.toRat_small : Sample.small.toRat = 1 / 2048 := by
  simp [Float32.toRat, Sample.small, Fin.coe_ofNat_eq_mod]
  norm_num

/-- The word `Sample.smallish` denotes `1.5 * 2 ^ (-11)`. -/
theorem Sample.toRat_smallish : Sample.smallish.toRat = 3 / 4096 := by
  simp [Float32.toRat, Sample.smallish, Fin.coe_ofNat_eq_mod]
  norm_num

/-- The word `Sample.smaller` denotes `1.25 * 2 ^ (-10)`. -/
theorem Sample.toRat_smaller : Sample.smaller.toRat = 5 / 4096 := by
  simp [Float32.toRat, Sample.smaller, Fin.coe_ofNat_eq_mod]
  norm_num

namespace LevelMeshPortal

/-- For an affine transform `p` and a transform `q` that undoes it, `q` takes the image of
the origin under `p` back to the origin. -/
theorem inverse_returns_origin (p q : LevelMeshPortal)
    (haff : p.transformation.IsAffine)
    (hleft : ∀ v : FVector4, q.transformation.mulVec (p.transformation.mulVec v) = v) :
    q.TransformPosition (p.TransformPosition ⟨0, 0, 0⟩) = ⟨0, 0, 0⟩ := by
  obtain ⟨h3, h7, h11, h15⟩ := haff
  have hw : (p.transformation.mulVec ⟨0, 0, 0, 1⟩).W = 1 := by
    simp [VSMatrix.mulVec, h15]
  have h := hleft ⟨0, 0, 0, 1⟩
  unfold TransformPosition
  cases hm : p.transformation.mulVec ⟨0, 0, 0, 1⟩ with
  | mk x y z w =>
    rw [hm] at h hw
    simp only at hw
    subst hw
    simp only [h]

/-- The exact inverse of an affine transform is affine. -/
theorem inverse_affine (p q : VSMatrix) (haff : p.IsAffine) (hinv : q.IsInverseOf p) :
    q.IsAffine := by
  obtain ⟨h3, h7, h11, h15⟩ := haff
  have e1 := congrArg FVector4.W (hinv ⟨1, 0, 0, 0⟩).2
  have e2 := congrArg FVector4.W (hinv ⟨0, 1, 0, 0⟩).2
  have e3 := congrArg FVector4.W (hinv ⟨0, 0, 1, 0⟩).2
  have e4 := congrArg FVector4.W (hinv ⟨0, 0, 0, 1⟩).2
  simp [VSMatrix.mulVec, h3, h7, h11, h15] at e1 e2 e3 e4
  exact ⟨e1, e2, e3, e4⟩

/-- A portal with an affine transform and the portal that inverts it with the sector groups
exchanged are inverse portals of each other. -/
theorem isInversePortal_of_inverse (p q : LevelMeshPortal) (haff : p.transformation.IsAffine)
    (hinv : q.transformation.IsInverseOf p.transformation)
    (hsrc : q.sourceSectorGroup = p.targetSectorGroup)
    (htgt : q.targetSectorGroup = p.sourceSectorGroup) :
    p.IsInversePortal q = true ∧ q.IsInversePortal p = true := by
  have hq := inverse_affine _ _ haff hinv
  have h1 := inverse_returns_origin p q haff (fun v => (hinv v).1)
  have h2 := inverse_returns_origin q p hq (fun v => (hinv v).2)
  constructor
  · simp [IsInversePortal, IsInverseTransformationPortal, h1, hsrc, htgt]
  · simp [IsInversePortal, IsInverseTransformationPortal, h2, hsrc, htgt]

/-- The matrices of `Sample.shift100` and `Sample.return100` invert each other. -/
theorem sample_inverse :
    Sample.return100.transformation.IsInverseOf Sample.shift100.transformation := by
  intro v
  simp [Sample.return100, Sample.shift100, Sample.translate100, VSMatrix.identity,
    VSMatrix.mulVec, Float32.toRat_one, Float32.toRat_zero, Sample.toRat_hundred,
    Sample.toRat_minusHundred]

/-- The matrix of `Sample.shift100` is affine. -/
theorem sample_affine : Sample.shift100.transformation.IsAffine := by
  simp [Sample.shift100, Sample.translate100, VSMatrix.identity, VSMatrix.IsAffine,
    Float32.toRat_one, Float32.toRat_zero]

/-- The method `IsEqualPortal` gives the same answer with receiver and argument exchanged. -/
theorem IsEqualPortal_comm (a b : LevelMeshPortal) : a.IsEqualPortal b = b.IsEqualPortal a := by
  unfold IsEqualPortal IsEqualTransformationPortal FVector3.sub
  simp only
  rw [abs_sub_comm (b.TransformPosition ⟨0, 0, 0⟩).X, abs_sub_comm (b.TransformPosition ⟨0, 0, 0⟩).Y,
    abs_sub_comm (b.TransformPosition ⟨0, 0, 0⟩).Z]
  simp only [eq_comm (a := a.sourceSectorGroup) (b := b.sourceSectorGroup),
    eq_comm (a := a.targetSectorGroup) (b := b.targetSectorGroup)]

/-- The method `IsEqualPortal` holds of a portal and itself. -/
theorem IsEqualPortal_self (a : LevelMeshPortal) : a.IsEqualPortal a = true := by
  simp [IsEqualPortal, IsEqualTransformationPortal, FVector3.sub]

end LevelMeshPortal

/-- C8. For every portal `P` whose transformation is affine (bottom row `0 0 0 1`) and the
portal `Q` whose transformation is the exact inverse of that of `P`, with source and target
sector group exchanged, both `P.IsInversePortal(Q)` and `Q.IsInversePortal(P)` are true. -/
theorem IsInversePortal_of_constructed_inverse (P Q : LevelMeshPortal)
    (haff : P.transformation.IsAffine)
    (hinv : Q.transformation.IsInverseOf P.transformation)
    (hsrc : Q.sourceSectorGroup = P.targetSectorGroup)
    (htgt : Q.targetSectorGroup = P.sourceSectorGroup) :
    P.IsInversePortal Q = true ∧ Q.IsInversePortal P = true :=
  LevelMeshPortal.isInversePortal_of_inverse P Q haff hinv hsrc htgt

/-- C8, instance: the portal that translates by `(100, 0, 0)` from group 0 to group 1 and
its return portal. -/
theorem IsInversePortal_of_constructed_inverse_witness :
    Sample.shift100.transformation.IsAffine ∧
      Sample.return100.transformation.IsInverseOf Sample.shift100.transformation ∧
      Sample.shift100.IsInversePortal Sample.return100 = true ∧
      Sample.return100.IsInversePortal Sample.shift100 = true :=
  ⟨LevelMeshPortal.sample_affine, LevelMeshPortal.sample_inverse,
    IsInversePortal_of_constructed_inverse Sample.shift100 Sample.return100
      LevelMeshPortal.sample_affine LevelMeshPortal.sample_inverse rfl rfl⟩

/-- C9, counterexample: the quarter turn about the z axis inside sector group 0 is reported
as its own inverse portal, yet applying it twice takes `(1, 0, 0)` to `(-1, 0, 0)`: it is
not an involution. -/
theorem IsInversePortal_self_not_involution :
    Sample.quarterTurn.IsInversePortal Sample.quarterTurn = true ∧
      Sample.quarterTurn.TransformPosition (Sample.quarterTurn.TransformPosition ⟨1, 0, 0⟩) =
        ⟨-1, 0, 0⟩ ∧
      Sample.quarterTurn.TransformPosition (Sample.quarterTurn.TransformPosition ⟨1, 0, 0⟩) ≠
        ⟨1, 0, 0⟩ := by
  refine ⟨?_, ?_, ?_⟩
  · simp [LevelMeshPortal.IsInversePortal, LevelMeshPortal.IsInverseTransformationPortal,
      LevelMeshPortal.TransformPosition, Sample.quarterTurn, VSMatrix.identity, VSMatrix.mulVec,
      Float32.toRat_one, Float32.toRat_zero, Sample.toRat_minusOne]
  · simp [LevelMeshPortal.TransformPosition, Sample.quarterTurn, VSMatrix.identity,
      VSMatrix.mulVec, Float32.toRat_one, Float32.toRat_zero, Sample.toRat_minusOne]
  · simp [LevelMeshPortal.TransformPosition, Sample.quarterTurn, VSMatrix.identity,
      VSMatrix.mulVec, Float32.toRat_one, Float32.toRat_zero, Sample.toRat_minusOne]
    norm_num

/-- C9, amended. `P.IsInversePortal(P)` is true exactly when the source and target sector
group of `P` agree and applying the transformation twice to the origin gives a point within
`0.001` of the origin on every axis; in particular it is true for every affine involution
with equal sector groups, and false when the groups differ. -/
theorem IsInversePortal_self_iff (P : LevelMeshPortal) :
    (P.IsInversePortal P = true ↔
      P.sourceSectorGroup = P.targetSectorGroup ∧
        |(P.TransformPosition (P.TransformPosition ⟨0, 0, 0⟩)).X| < 1 / 1000 ∧
        |(P.TransformPosition (P.TransformPosition ⟨0, 0, 0⟩)).Y| < 1 / 1000 ∧
        |(P.TransformPosition (P.TransformPosition ⟨0, 0, 0⟩)).Z| < 1 / 1000) ∧
      (P.sourceSectorGroup = P.targetSectorGroup →
        (∀ v, P.TransformPosition (P.TransformPosition v) = v) → P.IsInversePortal P = true) ∧
      (P.sourceSectorGroup ≠ P.targetSectorGroup → P.IsInversePortal P = false) := by
  refine ⟨?_, ?_, ?_⟩
  · simp only [LevelMeshPortal.IsInversePortal, LevelMeshPortal.IsInverseTransformationPortal,
      Bool.and_eq_true, decide_eq_true_eq]
    constructor
    · rintro ⟨⟨h1, _⟩, ⟨hx, hy⟩, hz⟩
      exact ⟨h1, hx, hy, hz⟩
    · rintro ⟨h1, hx, hy, hz⟩
      exact ⟨⟨h1, h1.symm⟩, ⟨hx, hy⟩, hz⟩
  · intro h1 hinv
    simp [LevelMeshPortal.IsInversePortal, LevelMeshPortal.IsInverseTransformationPortal,
      hinv, h1]
  · intro hne
    simp [LevelMeshPortal.IsInversePortal, hne]

/-- C11. For every portal `P` with an affine transformation and its return portal `Q` (exact
inverse transformation, sector groups exchanged), `RecursivePortalComparator` reports
neither `P` before `Q` nor `Q` before `P`. -/
theorem RecursivePortalComparator_return_portal (P Q : LevelMeshPortal)
    (haff : P.transformation.IsAffine)
    (hinv : Q.transformation.IsInverseOf P.transformation)
    (hsrc : Q.sourceSectorGroup = P.targetSectorGroup)
    (htgt : Q.targetSectorGroup = P.sourceSectorGroup) :
    RecursivePortalComparator P Q = false ∧ RecursivePortalComparator Q P = false := by
  obtain ⟨h1, h2⟩ := LevelMeshPortal.isInversePortal_of_inverse P Q haff hinv hsrc htgt
  simp [RecursivePortalComparator, h1, h2]

/-- C11, instance: the portal that translates by `(100, 0, 0)` and its return portal, whose
transformations differ. -/
theorem RecursivePortalComparator_return_portal_witness :
    Sample.shift100.transformation ≠ Sample.return100.transformation ∧
      RecursivePortalComparator Sample.shift100 Sample.return100 = false ∧
      RecursivePortalComparator Sample.return100 Sample.shift100 = false :=
  ⟨by decide,
    RecursivePortalComparator_return_portal Sample.shift100 Sample.return100
      LevelMeshPortal.sample_affine LevelMeshPortal.sample_inverse rfl rfl⟩

/-- C12, counterexample: the identity portals from group 1 to 2 and from group 3 to 4 are
not inverse portals of each other in either direction, yet `RecursivePortalComparator`
puts neither before the other. -/
theorem RecursivePortalComparator_identical_transformation :
    Sample.portalA ≠ Sample.portalG ∧
      Sample.portalA.transformation = Sample.portalG.transformation ∧
      Sample.portalA.IsInversePortal Sample.portalG = false ∧
      Sample.portalG.IsInversePortal Sample.portalA = false ∧
      RecursivePortalComparator Sample.portalA Sample.portalG = false ∧
      RecursivePortalComparator Sample.portalG Sample.portalA = false := by
  have h1 : Sample.portalA.IsInversePortal Sample.portalG = false := by
    simp [LevelMeshPortal.IsInversePortal, Sample.portalA, Sample.portalG]
  have h2 : Sample.portalG.IsInversePortal Sample.portalA = false := by
    simp [LevelMeshPortal.IsInversePortal, Sample.portalA, Sample.portalG]
  have hm : memcmp Sample.portalA.transformation.bytes Sample.portalG.transformation.bytes = 0 :=
    memcmp_self _
  have hm2 : memcmp Sample.portalG.transformation.bytes Sample.portalA.transformation.bytes = 0 :=
    memcmp_self _
  refine ⟨by decide, rfl, h1, h2, ?_, ?_⟩
  · simp [RecursivePortalComparator, hm]
  · simp [RecursivePortalComparator, hm2]

/-- C12, amended. For every two portals that are not inverse portals of each other in either
direction, `RecursivePortalComparator` puts one of them before the other exactly when their
transformations differ (in their 64 bytes); two portals with an identical transformation are
never told apart, whatever their sector groups. -/
theorem RecursivePortalComparator_distinct_iff (A B : LevelMeshPortal)
    (hAB : A.IsInversePortal B = false) (hBA : B.IsInversePortal A = false) :
    ((RecursivePortalComparator A B = true ∨ RecursivePortalComparator B A = true) ↔
        A.transformation ≠ B.transformation) ∧
      (A.transformation = B.transformation →
        RecursivePortalComparator A B = false ∧ RecursivePortalComparator B A = false) := by
  have hswap := memcmp_swap A.transformation.bytes B.transformation.bytes
  have key : (RecursivePortalComparator A B = true ∨ RecursivePortalComparator B A = true) ↔
      A.transformation ≠ B.transformation := by
    simp only [RecursivePortalComparator, hAB, hBA, Bool.not_false, Bool.true_and,
      decide_eq_true_eq]
    constructor
    · intro h heq
      rw [heq, memcmp_self] at h
      simp at h
    · intro hne
      by_contra hcon
      push_neg at hcon
      have h0 : memcmp A.transformation.bytes B.transformation.bytes = 0 := by omega
      exact hne (VSMatrix.matrix_bytes_injective _ _
        (memcmp_eq_zero _ _ (by simp [VSMatrix.matrix_bytes_length]) h0))
  refine ⟨key, ?_⟩
  intro heq
  have hnot := mt key.mp (not_not.mpr heq)
  push_neg at hnot
  exact ⟨by simpa using hnot.1, by simpa using hnot.2⟩

/-- C12, instance of the amended statement: the identity portal from group 1 to 2 and the
translation by `2 ^ (-63)` inside group 7. -/
theorem RecursivePortalComparator_distinct_iff_witness :
    Sample.portalA.IsInversePortal Sample.portalB = false ∧
      Sample.portalB.IsInversePortal Sample.portalA = false ∧
      ((RecursivePortalComparator Sample.portalA Sample.portalB = true ∨
          RecursivePortalComparator Sample.portalB Sample.portalA = true) ↔
        Sample.portalA.transformation ≠ Sample.portalB.transformation) :=
  ⟨by simp [LevelMeshPortal.IsInversePortal, Sample.portalA, Sample.portalB],
    by simp [LevelMeshPortal.IsInversePortal, Sample.portalA, Sample.portalB],
    (RecursivePortalComparator_distinct_iff Sample.portalA Sample.portalB
      (by simp [LevelMeshPortal.IsInversePortal, Sample.portalA, Sample.portalB])
      (by simp [LevelMeshPortal.IsInversePortal, Sample.portalA, Sample.portalB])).1⟩

/-- C13. For every two portals `A` and `B` with `A.IsEqualPortal(B)`,
`IdenticalPortalComparator` reports neither `A` before `B` nor `B` before `A`; and
`IsEqualPortal` is reflexive and symmetric. -/
theorem IdenticalPortalComparator_equal_portals (A B : LevelMeshPortal)
    (h : A.IsEqualPortal B = true) :
    IdenticalPortalComparator A B = false ∧ IdenticalPortalComparator B A = false ∧
      B.IsEqualPortal A = true ∧
      (∀ C : LevelMeshPortal, C.IsEqualPortal C = true) ∧
      (∀ C D : LevelMeshPortal, C.IsEqualPortal D = D.IsEqualPortal C) := by
  have h2 : B.IsEqualPortal A = true := by rw [LevelMeshPortal.IsEqualPortal_comm]; exact h
  refine ⟨?_, ?_, h2, LevelMeshPortal.IsEqualPortal_self, LevelMeshPortal.IsEqualPortal_comm⟩
  · simp [IdenticalPortalComparator, h]
  · simp [IdenticalPortalComparator, h2]

/-- The portals `Sample.portalA` and `Sample.portalD` are equal portals. -/
theorem Sample.portalA_equal_portalD : Sample.portalA.IsEqualPortal Sample.portalD = true := by
  simp [LevelMeshPortal.IsEqualPortal, LevelMeshPortal.IsEqualTransformationPortal,
    LevelMeshPortal.TransformPosition, FVector3.sub, Sample.portalA, Sample.portalD,
    VSMatrix.identity, VSMatrix.mulVec, Float32.toRat_one, Float32.toRat_zero,
    Sample.toRat_small]
  norm_num [abs_lt]

/-- C13, instance: the identity and the translation by `2 ^ (-11)`, both from group 1 to
group 2, have different transformations and collapse to one key. -/
theorem IdenticalPortalComparator_equal_portals_witness :
    Sample.portalA.transformation ≠ Sample.portalD.transformation ∧
      Sample.portalA.IsEqualPortal Sample.portalD = true ∧
      IdenticalPortalComparator Sample.portalA Sample.portalD = false ∧
      IdenticalPortalComparator Sample.portalD Sample.portalA = false :=
  ⟨by decide, Sample.portalA_equal_portalD,
    (IdenticalPortalComparator_equal_portals Sample.portalA Sample.portalD
      Sample.portalA_equal_portalD).1,
    (IdenticalPortalComparator_equal_portals Sample.portalA Sample.portalD
      Sample.portalA_equal_portalD).2.1⟩

/-- C10, failing inputs evaluated.  With `a` the identity from group 1 to 2, `b` the
translation by `2 ^ (-63)` inside group 7 and `c` the translation by `2 ^ (-11)` from group
2 to 1, `RecursivePortalComparator` has `a < b` and `b < c` but not `a < c`; with `e` the
identity from group 2 to 1 and `f` the translation by `2 ^ (-63)` from group 1 to 2 it
leaves `a`, `e` and `e`, `f` unordered but has `a < f`.  `IdenticalPortalComparator` has
`a < b` and `b < d` but not `a < d` for the translation `d` by `2 ^ (-11)` from group 1 to
2, and leaves `a`, `h` and `h`, `k` unordered but has `a < k` for the translations `h`, `k`
by `1.5 * 2 ^ (-11)` and `1.25 * 2 ^ (-10)` from group 1 to 2. -/
theorem PortalComparators_not_strict_weak :
    (RecursivePortalComparator Sample.portalA Sample.portalB = true ∧
      RecursivePortalComparator Sample.portalB Sample.portalC = true ∧
      RecursivePortalComparator Sample.portalA Sample.portalC = false) ∧
    (RecursivePortalComparator Sample.portalA Sample.portalE = false ∧
      RecursivePortalComparator Sample.portalE Sample.portalA = false ∧
      RecursivePortalComparator Sample.portalE Sample.portalF = false ∧
      RecursivePortalComparator Sample.portalF Sample.portalE = false ∧
      RecursivePortalComparator Sample.portalA Sample.portalF = true) ∧
    (IdenticalPortalComparator Sample.portalA Sample.portalB = true ∧
      IdenticalPortalComparator Sample.portalB Sample.portalD = true ∧
      IdenticalPortalComparator Sample.portalA Sample.portalD = false) ∧
    (IdenticalPortalComparator Sample.portalA Sample.portalH = false ∧
      IdenticalPortalComparator Sample.portalH Sample.portalA = false ∧
      IdenticalPortalComparator Sample.portalH Sample.portalK = false ∧
      IdenticalPortalComparator Sample.portalK Sample.portalH = false ∧
      IdenticalPortalComparator Sample.portalA Sample.portalK = true) := by
  have mAB : memcmp Sample.portalA.transformation.bytes Sample.portalB.transformation.bytes < 0 := by
    decide
  have mBC : memcmp Sample.portalB.transformation.bytes Sample.portalC.transformation.bytes < 0 := by
    decide
  have mBD : memcmp Sample.portalB.transformation.bytes Sample.portalD.transformation.bytes < 0 := by
    decide
  have mAF : memcmp Sample.portalA.transformation.bytes Sample.portalF.transformation.bytes < 0 := by
    decide
  have mAK : memcmp Sample.portalA.transformation.bytes Sample.portalK.transformation.bytes < 0 := by
    decide
  refine ⟨⟨?_, ?_, ?_⟩, ⟨?_, ?_, ?_, ?_, ?_⟩, ⟨?_, ?_, ?_⟩, ⟨?_, ?_, ?_, ?_, ?_⟩⟩
  · have hi : Sample.portalA.IsInversePortal Sample.portalB = false := by
      simp [LevelMeshPortal.IsInversePortal, Sample.portalA, Sample.portalB]
    simp [RecursivePortalComparator, mAB, hi]
  · have hi : Sample.portalB.IsInversePortal Sample.portalC = false := by
      simp [LevelMeshPortal.IsInversePortal, Sample.portalB, Sample.portalC]
    simp [RecursivePortalComparator, mBC, hi]
  · simp [RecursivePortalComparator, LevelMeshPortal.IsInversePortal,
      LevelMeshPortal.IsInverseTransformationPortal, LevelMeshPortal.TransformPosition,
      Sample.portalA, Sample.portalC, VSMatrix.identity, VSMatrix.mulVec, Float32.toRat_one,
      Float32.toRat_zero, Sample.toRat_small]
    norm_num [abs_lt]
  · simp [RecursivePortalComparator, LevelMeshPortal.IsInversePortal,
      LevelMeshPortal.IsInverseTransformationPortal, LevelMeshPortal.TransformPosition,
      Sample.portalA, Sample.portalE, VSMatrix.identity, VSMatrix.mulVec, Float32.toRat_one,
      Float32.toRat_zero]
  · simp [RecursivePortalComparator, LevelMeshPortal.IsInversePortal,
      LevelMeshPortal.IsInverseTransformationPortal, LevelMeshPortal.TransformPosition,
      Sample.portalA, Sample.portalE, VSMatrix.identity, VSMatrix.mulVec, Float32.toRat_one,
      Float32.toRat_zero]
  · simp [RecursivePortalComparator, LevelMeshPortal.IsInversePortal,
      LevelMeshPortal.IsInverseTransformationPortal, LevelMeshPortal.TransformPosition,
      Sample.portalE, Sample.portalF, VSMatrix.identity, VSMatrix.mulVec, Float32.toRat_one,
      Float32.toRat_zero, Sample.toRat_tiny]
    norm_num [abs_lt]
  · simp [RecursivePortalComparator, LevelMeshPortal.IsInversePortal,
      LevelMeshPortal.IsInverseTransformationPortal, LevelMeshPortal.TransformPosition,
      Sample.portalE, Sample.portalF, VSMatrix.identity, VSMatrix.mulVec, Float32.toRat_one,
      Float32.toRat_zero, Sample.toRat_tiny]
    norm_num [abs_lt]
  · have hi : Sample.portalA.IsInversePortal Sample.portalF = false := by
      simp [LevelMeshPortal.IsInversePortal, Sample.portalA, Sample.portalF]
    simp [RecursivePortalComparator, mAF, hi]
  · have hi : Sample.portalA.IsEqualPortal Sample.portalB = false := by
      simp [LevelMeshPortal.IsEqualPortal, Sample.portalA, Sample.portalB]
    simp [IdenticalPortalComparator, mAB, hi]
  · have hi : Sample.portalB.IsEqualPortal Sample.portalD = false := by
      simp [LevelMeshPortal.IsEqualPortal, Sample.portalB, Sample.portalD]
    simp [IdenticalPortalComparator, mBD, hi]
  · simp [IdenticalPortalComparator, Sample.portalA_equal_portalD]
  · simp [IdenticalPortalComparator, LevelMeshPortal.IsEqualPortal,
      LevelMeshPortal.IsEqualTransformationPortal, LevelMeshPortal.TransformPosition,
      FVector3.sub, Sample.portalA, Sample.portalH, VSMatrix.identity, VSMatrix.mulVec,
      Float32.toRat_one, Float32.toRat_zero, Sample.toRat_smallish]
    norm_num [abs_lt]
  · simp [IdenticalPortalComparator, LevelMeshPortal.IsEqualPortal,
      LevelMeshPortal.IsEqualTransformationPortal, LevelMeshPortal.TransformPosition,
      FVector3.sub, Sample.portalA, Sample.portalH, VSMatrix.identity, VSMatrix.mulVec,
      Float32.toRat_one, Float32.toRat_zero, Sample.toRat_smallish]
    norm_num [abs_lt]
  · simp [IdenticalPortalComparator, LevelMeshPortal.IsEqualPortal,
      LevelMeshPortal.IsEqualTransformationPortal, LevelMeshPortal.TransformPosition,
      FVector3.sub, Sample.portalK, Sample.portalH, VSMatrix.identity, VSMatrix.mulVec,
      Float32.toRat_one, Float32.toRat_zero, Sample.toRat_smallish, Sample.toRat_smaller]
    norm_num [abs_lt]
  · simp [IdenticalPortalComparator, LevelMeshPortal.IsEqualPortal,
      LevelMeshPortal.IsEqualTransformationPortal, LevelMeshPortal.TransformPosition,
      FVector3.sub, Sample.portalK, Sample.portalH, VSMatrix.identity, VSMatrix.mulVec,
      Float32.toRat_one, Float32.toRat_zero, Sample.toRat_smallish, Sample.toRat_smaller]
    norm_num [abs_lt]
  · have hi : Sample.portalA.IsEqualPortal Sample.portalK = false := by
      simp [LevelMeshPortal.IsEqualPortal, LevelMeshPortal.IsEqualTransformationPortal,
        LevelMeshPortal.TransformPosition, FVector3.sub, Sample.portalA, Sample.portalK,
        VSMatrix.identity, VSMatrix.mulVec, Float32.toRat_one, Float32.toRat_zero,
        Sample.toRat_smaller]
      norm_num [abs_of_pos]
    simp [IdenticalPortalComparator, mAK, hi]

/-- Both comparators are irreflexive and asymmetric. -/
theorem PortalComparators_irreflexive_asymmetric (a b : LevelMeshPortal) :
    RecursivePortalComparator a a = false ∧ IdenticalPortalComparator a a = false ∧
      ¬ (RecursivePortalComparator a b = true ∧ RecursivePortalComparator b a = true) ∧
      ¬ (IdenticalPortalComparator a b = true ∧ IdenticalPortalComparator b a = true) := by
  have hswap := memcmp_swap a.transformation.bytes b.transformation.bytes
  refine ⟨?_, ?_, ?_, ?_⟩
  · simp [RecursivePortalComparator, memcmp_self]
  · simp [IdenticalPortalComparator, memcmp_self]
  · simp only [RecursivePortalComparator, Bool.and_eq_true, decide_eq_true_eq]
    rintro ⟨⟨_, h1⟩, ⟨_, h2⟩⟩
    omega
  · simp only [IdenticalPortalComparator, Bool.and_eq_true, decide_eq_true_eq]
    rintro ⟨⟨_, h1⟩, ⟨_, h2⟩⟩
    omega

namespace LevelMesh

/-- The query `Sample.gateAt f` keeps the nearest-hit contract for `f` in `[0, 1]`. -/
theorem gateAt_fractions (f : ℚ) (h0 : 0 ≤ f) (h1 : f ≤ 1) :
    FractionsInUnitInterval (Sample.gateAt f) := by
  intro shape o e h
  unfold Sample.gateAt at h ⊢
  split
  · exact ⟨h0, h1⟩
  · rename_i hne
    simp [hne] at h

end LevelMesh

namespace LevelMesh

/-- With the query `Sample.gateAt f`, `f < 1`, every iteration on `Sample.mesh` acts on the
static submesh and the hit of the gate. -/
theorem iterationHit_gateAt (f : ℚ) (hf : f < 1) (st : TraceState) :
    iterationHit (Sample.gateAt f) Sample.mesh st = (Sample.submesh, true, ⟨f, 1⟩) := by
  simp [iterationHit, chosenHit, Sample.gateAt, Sample.mesh, Sample.submesh, Sample.bare, hf]

end LevelMesh

/-- C2, instance: the gate is hit at fraction `0.9` with 20 units remaining, so that the
push-through uses up the budget (`0.9 * 20 + 2 >= 20`); the loop returns the gate surface
(index 1 of the static submesh) from this iteration. -/
theorem Trace_returns_hit_surface_witness :
    LevelMesh.traceBody (Sample.gateAt (9 / 10)) Sample.mesh ⟨⟨0, 0, 0⟩, ⟨1, 0, 0⟩, 20⟩ =
        TraceStep.done (TraceResult.surface true 1) ∧
      ∀ fuel, LevelMesh.traceLoop (Sample.gateAt (9 / 10)) Sample.mesh (fuel + 1)
        ⟨⟨0, 0, 0⟩, ⟨1, 0, 0⟩, 20⟩ = some (TraceResult.surface true 1, 1) := by
  have h := LevelMesh.Trace_returns_hit_surface (Sample.gateAt (9 / 10)) Sample.mesh
    ⟨⟨0, 0, 0⟩, ⟨1, 0, 0⟩, 20⟩ 1 Sample.gate
    (by rw [LevelMesh.iterationHit_gateAt _ (by norm_num)]; decide)
    (by rw [LevelMesh.iterationHit_gateAt _ (by norm_num)]; rfl)
    (by rw [LevelMesh.iterationHit_gateAt _ (by norm_num)]; rfl)
    (Or.inr ⟨by decide, by
      rw [LevelMesh.iterationHit_gateAt _ (by norm_num)]
      norm_num⟩)
  rw [LevelMesh.iterationHit_gateAt _ (by norm_num)] at h
  exact h

/-- Outside the contract on misses a reported hit can be lost: when the static submesh of
`Sample.mesh` reports triangle 1 at fraction 1 and the dynamic one reports no hit with the
same fraction 1, the body acts on the dynamic result and returns `nullptr`. -/
theorem Trace_discards_reported_hit :
    LevelMesh.FractionsInUnitInterval (Sample.gateAt 1) ∧
      0 ≤ (Sample.gateAt 1 Sample.mesh.StaticMesh.Collision ⟨0, 0, 0⟩ ⟨20, 0, 0⟩).triangle ∧
      LevelMesh.traceBody (Sample.gateAt 1) Sample.mesh ⟨⟨0, 0, 0⟩, ⟨1, 0, 0⟩, 20⟩ =
        TraceStep.done TraceResult.null ∧
      LevelMesh.Trace (Sample.gateAt 1) Sample.mesh ⟨0, 0, 0⟩ ⟨1, 0, 0⟩ 30 1 =
        some (TraceResult.null, 1) := by
  refine ⟨LevelMesh.gateAt_fractions 1 (by norm_num) (le_refl _), ?_, ?_, ?_⟩
  · simp [Sample.gateAt, Sample.mesh, Sample.submesh]
  · simp [LevelMesh.traceBody, LevelMesh.chosenHit, LevelMesh.traceHit, Sample.gateAt,
      Sample.mesh, Sample.submesh, Sample.bare]
  · simp [LevelMesh.Trace, LevelMesh.traceLoop, LevelMesh.traceBody, LevelMesh.chosenHit,
      LevelMesh.traceHit, Sample.gateAt, Sample.mesh, Sample.submesh, Sample.bare]

/-- C15. A freshly constructed `LevelSubmesh` holds exactly 12 vertices whose coordinates are
all `-100001` or `-100000`; they form four triangles with area, the first two in the plane
`z = -100001` and the last two in the plane `z = -100000`; `MeshElements` is `0, 1, .., 11`,
so every index is in range of the vertex array and the index count is a multiple of 3;
`MeshVertexUVs` has the length of `MeshVertices`; `Portals` holds exactly one portal, with
the identity transformation and both sector groups 0; the collision shape is built from the
two arrays and there are no surfaces. -/
theorem LevelSubmesh_construct_placeholder :
    LevelSubmesh.construct.MeshVertices.length = 12 ∧
      (∀ v ∈ LevelSubmesh.construct.MeshVertices,
        (v.X = -100001 ∨ v.X = -100000) ∧ (v.Y = -100001 ∨ v.Y = -100000) ∧
          (v.Z = -100001 ∨ v.Z = -100000)) ∧
      LevelSubmesh.construct.Collision.triangleAt 0 =
        some (⟨-100001, -100001, -100001⟩, ⟨-100000, -100001, -100001⟩,
          ⟨-100000, -100000, -100001⟩) ∧
      LevelSubmesh.construct.Collision.triangleAt 1 =
        some (⟨-100001, -100001, -100001⟩, ⟨-100001, -100000, -100001⟩,
          ⟨-100000, -100000, -100001⟩) ∧
      LevelSubmesh.construct.Collision.triangleAt 2 =
        some (⟨-100001, -100001, -100000⟩, ⟨-100000, -100001, -100000⟩,
          ⟨-100000, -100000, -100000⟩) ∧
      LevelSubmesh.construct.Collision.triangleAt 3 =
        some (⟨-100001, -100001, -100000⟩, ⟨-100001, -100000, -100000⟩,
          ⟨-100000, -100000, -100000⟩) ∧
      LevelSubmesh.construct.Collision.triangleAt 4 = none ∧
      ¬ TriangleIsDegenerate ⟨-100001, -100001, -100001⟩ ⟨-100000, -100001, -100001⟩
        ⟨-100000, -100000, -100001⟩ ∧
      ¬ TriangleIsDegenerate ⟨-100001, -100001, -100001⟩ ⟨-100001, -100000, -100001⟩
        ⟨-100000, -100000, -100001⟩ ∧
      ¬ TriangleIsDegenerate ⟨-100001, -100001, -100000⟩ ⟨-100000, -100001, -100000⟩
        ⟨-100000, -100000, -100000⟩ ∧
      ¬ TriangleIsDegenerate ⟨-100001, -100001, -100000⟩ ⟨-100001, -100000, -100000⟩
        ⟨-100000, -100000, -100000⟩ ∧
      LevelSubmesh.construct.MeshElements = [0, 1, 2, 3, 4, 5, 6, 7, 8, 9, 10, 11] ∧
      (∀ e ∈ LevelSubmesh.construct.MeshElements,
        e < LevelSubmesh.construct.MeshVertices.length) ∧
      LevelSubmesh.construct.MeshElements.length % 3 = 0 ∧
      LevelSubmesh.construct.MeshVertexUVs.length =
        LevelSubmesh.construct.MeshVertices.length ∧
      LevelSubmesh.construct.Portals =
        [{ transformation := VSMatrix.identity, sourceSectorGroup := 0,
           targetSectorGroup := 0 }] ∧
      LevelSubmesh.construct.Collision =
        ⟨LevelSubmesh.construct.MeshVertices, LevelSubmesh.construct.MeshElements⟩ ∧
      LevelSubmesh.construct.GetSurfaceCount = 0 := by
  refine ⟨rfl, ?_, ?_, ?_, ?_, ?_, ?_, ?_, ?_, ?_, ?_, ?_, ?_, rfl, rfl, rfl, rfl, rfl⟩
  · intro v hv
    simp only [LevelSubmesh.construct, LevelSubmesh.UpdateCollision, List.mem_cons,
      List.mem_singleton, List.not_mem_nil, or_false] at hv
    rcases hv with h | h | h | h | h | h | h | h | h | h | h | h <;> subst h <;> simp
  · simp [TriangleMeshShape.triangleAt, LevelSubmesh.construct, LevelSubmesh.UpdateCollision,
      elemAt, List.range, List.range.loop]
  · simp [TriangleMeshShape.triangleAt, LevelSubmesh.construct, LevelSubmesh.UpdateCollision,
      elemAt, List.range, List.range.loop]
  · simp [TriangleMeshShape.triangleAt, LevelSubmesh.construct, LevelSubmesh.UpdateCollision,
      elemAt, List.range, List.range.loop]
  · simp [TriangleMeshShape.triangleAt, LevelSubmesh.construct, LevelSubmesh.UpdateCollision,
      elemAt, List.range, List.range.loop]
  · simp [TriangleMeshShape.triangleAt, LevelSubmesh.construct, LevelSubmesh.UpdateCollision,
      elemAt, List.range, List.range.loop]
  · simp [TriangleIsDegenerate, FVector3.cross, FVector3.sub]
    norm_num
  · simp [TriangleIsDegenerate, FVector3.cross, FVector3.sub]
    norm_num
  · simp [TriangleIsDegenerate, FVector3.cross, FVector3.sub]
    norm_num
  · simp [TriangleIsDegenerate, FVector3.cross, FVector3.sub]
    norm_num
  · rfl
  · intro e he
    have hl : LevelSubmesh.construct.MeshVertices.length = 12 := rfl
    have hm : LevelSubmesh.construct.MeshElements = List.range 12 := rfl
    rw [hl]
    rw [hm] at he
    exact List.mem_range.mp he

/-- The corners of a triangle of a shape are vertices of the shape. -/
theorem TriangleMeshShape.triangleAt_mem (shape : TriangleMeshShape) (t : Int)
    (v0 v1 v2 : FVector3) (h : shape.triangleAt t = some (v0, v1, v2)) :
    v0 ∈ shape.vertices ∧ v1 ∈ shape.vertices ∧ v2 ∈ shape.vertices := by
  unfold TriangleMeshShape.triangleAt at h
  split at h
  · split at h
    · rename_i h0 h1 h2
      simp only [Option.some.injEq, Prod.mk.injEq] at h
      obtain ⟨e0, e1, e2⟩ := h
      subst e0 e1 e2
      exact ⟨List.get?_mem h0, List.get?_mem h1, List.get?_mem h2⟩
    · exact absurd h (by simp)
  · exact absurd h (by simp)

/-- Every vertex of the default mesh lies at `x <= -100000`. -/
theorem LevelSubmesh.construct_vertices_far :
    ∀ v ∈ LevelSubmesh.construct.Collision.vertices, v.X ≤ -100000 := by
  intro v hv
  simp only [LevelSubmesh.construct, LevelSubmesh.UpdateCollision, List.mem_cons,
    List.mem_singleton, List.not_mem_nil, or_false] at hv
  rcases hv with h | h | h | h | h | h | h | h | h | h | h | h <;> subst h <;> norm_num

/-- A segment inside the plane `x = 0` meets no triangle whose corners lie at
`x <= -100000`. -/
theorem not_SegmentMeetsTriangle_of_far (o e v0 v1 v2 : FVector3) (ho : o.X = 0)
    (he : e.X = 0) (h0 : v0.X ≤ -100000) (h1 : v1.X ≤ -100000) (h2 : v2.X ≤ -100000) :
    ¬ SegmentMeetsTriangle o e v0 v1 v2 := by
  rintro ⟨t, a, b, c, _, _, ha, hb, hc, hsum, heq⟩
  have hx := congrArg FVector3.X heq
  simp only [FVector3.add, FVector3.scale, FVector3.sub, ho, he] at hx
  have e0 : v0.X * a ≤ -100000 * a := mul_le_mul_of_nonneg_right h0 ha
  have e1 : v1.X * b ≤ -100000 * b := mul_le_mul_of_nonneg_right h1 hb
  have e2 : v2.X * c ≤ -100000 * c := mul_le_mul_of_nonneg_right h2 hc
  have : v0.X * a + v1.X * b + v2.X * c ≤ -100000 := by
    have : -100000 * a + -100000 * b + -100000 * c = (-100000 : ℚ) := by
      rw [← mul_add, ← mul_add, hsum, mul_one]
    linarith
  linarith

/-- C16. On a `LevelMesh` whose two submeshes are freshly constructed, with a nearest-hit
query that reports only triangles which the queried segment intersects, `Trace` from
`(0, 0, 10)` in the direction `(0, 0, -1)` with `maxDist = 1000` returns `nullptr` from its
first iteration: it returns and reads no array outside its bounds. -/
theorem Trace_placeholder_mesh
    (find_first_hit : TriangleMeshShape → FVector3 → FVector3 → TraceHit)
    (hq : ReportsOnlyIntersected find_first_hit) (fuel : Nat) :
    LevelMesh.Trace find_first_hit LevelMesh.construct ⟨0, 0, 10⟩ ⟨0, 0, -1⟩ 1000 (fuel + 1) =
      some (TraceResult.null, 1) := by
  have hmiss : ∀ e : FVector3, e.X = 0 →
      (find_first_hit LevelSubmesh.construct.Collision ⟨0, 0, 10⟩ e).triangle < 0 := by
    intro e he
    by_contra hcon
    obtain ⟨v0, v1, v2, htri, hmeet⟩ := hq _ _ _ (not_lt.mp hcon)
    obtain ⟨m0, m1, m2⟩ := TriangleMeshShape.triangleAt_mem _ _ _ _ _ htri
    exact not_SegmentMeetsTriangle_of_far _ _ _ _ _ rfl he
      (LevelSubmesh.construct_vertices_far _ m0) (LevelSubmesh.construct_vertices_far _ m1)
      (LevelSubmesh.construct_vertices_far _ m2) hmeet
  have hend : ((⟨0, 0, 10⟩ : FVector3).add
      ((⟨0, 0, -1⟩ : FVector3).scale (max ((1000 : ℚ) - 10) 0))).X = 0 := by
    simp [FVector3.add, FVector3.scale]
  have h := hmiss _ hend
  have hb : LevelMesh.traceBody find_first_hit LevelMesh.construct
      { origin := ⟨0, 0, 10⟩, direction := ⟨0, 0, -1⟩, maxDist := max (1000 - 10) 0 } =
      TraceStep.done TraceResult.null := by
    rw [LevelMesh.traceBody_eq_traceHit]
    have ht : (LevelMesh.iterationHit find_first_hit LevelMesh.construct
        { origin := ⟨0, 0, 10⟩, direction := ⟨0, 0, -1⟩,
          maxDist := max (1000 - 10) 0 }).2.2.triangle < 0 := by
      unfold LevelMesh.iterationHit LevelMesh.chosenHit
      simp only [LevelMesh.construct]
      split <;> exact h
    unfold LevelMesh.traceHit
    rw [if_pos ht]
  unfold LevelMesh.Trace LevelMesh.traceLoop
  rw [hb]

/-- C16, instance: the query that never reports a hit. -/
theorem Trace_placeholder_mesh_witness :
    ReportsOnlyIntersected Sample.noHit ∧
      LevelMesh.Trace Sample.noHit LevelMesh.construct ⟨0, 0, 10⟩ ⟨0, 0, -1⟩ 1000 1 =
        some (TraceResult.null, 1) :=
  have hq : ReportsOnlyIntersected Sample.noHit := by
    intro shape o e h
    simp [Sample.noHit] at h
  ⟨hq, Trace_placeholder_mesh Sample.noHit hq 0⟩

namespace LevelSubmesh

/-- What the loop of `GatherSurfacePixelStats` adds to the counters. -/
theorem gatherLoop_totals : ∀ (l : List LevelMeshSurface) (stats : LevelMeshSurfaceStats),
    stats.InRange →
    (gatherLoop l stats).InRange ∧
      (gatherLoop l stats).surfaces.total = stats.surfaces.total ∧
      (gatherLoop l stats).surfaces.dirty =
        (stats.surfaces.dirty + (l.filter (fun s => s.needsUpdate)).length) % 4294967296 ∧
      (gatherLoop l stats).surfaces.sky =
        (stats.surfaces.sky + (l.filter (fun s => s.bSky)).length) % 4294967296 ∧
      (gatherLoop l stats).pixels.total =
        (stats.pixels.total + (l.map LevelMeshSurface.Area).sum) % 4294967296 ∧
      (gatherLoop l stats).pixels.dirty =
        (stats.pixels.dirty +
          ((l.filter (fun s => s.needsUpdate)).map LevelMeshSurface.Area).sum) % 4294967296 ∧
      (gatherLoop l stats).pixels.sky =
        (stats.pixels.sky +
          ((l.filter (fun s => s.bSky)).map LevelMeshSurface.Area).sum) % 4294967296 := by
  intro l
  induction l with
  | nil =>
    intro stats hr
    obtain ⟨h1, h2, h3, h4, h5, h6⟩ := hr
    simp only [gatherLoop, List.filter_nil, List.length_nil, List.map_nil, List.sum_nil,
      Nat.add_zero]
    refine ⟨⟨h1, h2, h3, h4, h5, h6⟩, trivial, ?_, ?_, ?_, ?_, ?_⟩ <;> omega
  | cons s rest ih =>
    intro stats hr
    obtain ⟨h1, h2, h3, h4, h5, h6⟩ := hr
    have hr1 : (gatherOne s stats).InRange := by
      unfold gatherOne LevelMeshSurfaceStats.InRange
      cases s.needsUpdate <;> cases s.bSky <;> simp <;> omega
    obtain ⟨i0, i1, i2, i3, i4, i5, i6⟩ := ih (gatherOne s stats) hr1
    simp only [gatherLoop]
    refine ⟨i0, ?_, ?_, ?_, ?_, ?_, ?_⟩
    · rw [i1]; unfold gatherOne
      cases s.needsUpdate <;> cases s.bSky <;> simp
    · rw [i2]; unfold gatherOne
      cases hn : s.needsUpdate <;> cases s.bSky <;> simp [List.filter_cons, hn] <;> omega
    · rw [i3]; unfold gatherOne
      cases s.needsUpdate <;> cases hb : s.bSky <;> simp [List.filter_cons, hb] <;> omega
    · rw [i4]; unfold gatherOne
      cases s.needsUpdate <;> cases s.bSky <;> simp <;> omega
    · rw [i5]; unfold gatherOne
      cases hn : s.needsUpdate <;> cases s.bSky <;> simp [List.filter_cons, hn] <;> omega
    · rw [i6]; unfold gatherOne
      cases s.needsUpdate <;> cases hb : s.bSky <;> simp [List.filter_cons, hb] <;> omega

end LevelSubmesh

/-- Two statistics records with the same six counters are equal. -/
theorem LevelMeshSurfaceStats.ext_counters (a b : LevelMeshSurfaceStats)
    (h1 : a.surfaces.total = b.surfaces.total) (h2 : a.surfaces.dirty = b.surfaces.dirty)
    (h3 : a.surfaces.sky = b.surfaces.sky) (h4 : a.pixels.total = b.pixels.total)
    (h5 : a.pixels.dirty = b.pixels.dirty) (h6 : a.pixels.sky = b.pixels.sky) : a = b := by
  obtain ⟨⟨a1, a2, a3⟩, ⟨a4, a5, a6⟩⟩ := a
  obtain ⟨⟨b1, b2, b3⟩, ⟨b4, b5, b6⟩⟩ := b
  simp only at h1 h2 h3 h4 h5 h6
  subst h1 h2 h3 h4 h5 h6
  rfl

/-- What `LevelSubmesh::GatherSurfacePixelStats` does to counters in range. -/
theorem LevelSubmesh.GatherSurfacePixelStats_adds (sub : LevelSubmesh)
    (stats : LevelMeshSurfaceStats) (hr : stats.InRange) :
    (sub.GatherSurfacePixelStats stats).2.InRange ∧
    (sub.GatherSurfacePixelStats stats).2 =
      { surfaces :=
          { total := (stats.surfaces.total + sub.Surfaces.length) % 4294967296,
            dirty := (stats.surfaces.dirty +
              (sub.Surfaces.filter (fun s => s.needsUpdate)).length) % 4294967296,
            sky := (stats.surfaces.sky +
              (sub.Surfaces.filter (fun s => s.bSky)).length) % 4294967296 },
        pixels :=
          { total := (stats.pixels.total +
              (sub.Surfaces.map LevelMeshSurface.Area).sum) % 4294967296,
            dirty := (stats.pixels.dirty +
              ((sub.Surfaces.filter (fun s => s.needsUpdate)).map
                LevelMeshSurface.Area).sum) % 4294967296,
            sky := (stats.pixels.sky +
              ((sub.Surfaces.filter (fun s => s.bSky)).map
                LevelMeshSurface.Area).sum) % 4294967296 } } := by
  obtain ⟨i0, i1, i2, i3, i4, i5, i6⟩ := LevelSubmesh.gatherLoop_totals sub.Surfaces stats hr
  obtain ⟨r1, r2, r3, r4, r5, r6⟩ := i0
  constructor
  · unfold LevelSubmesh.GatherSurfacePixelStats LevelMeshSurfaceStats.InRange
    simp only
    exact ⟨Nat.mod_lt _ (by decide), r2, r3, r4, r5, r6⟩
  · apply LevelMeshSurfaceStats.ext_counters
    · simp only [LevelSubmesh.GatherSurfacePixelStats, LevelSubmesh.GetSurfaceCount, i1]
    · simp only [LevelSubmesh.GatherSurfacePixelStats, i2]
    · simp only [LevelSubmesh.GatherSurfacePixelStats, i3]
    · simp only [LevelSubmesh.GatherSurfacePixelStats, i4]
    · simp only [LevelSubmesh.GatherSurfacePixelStats, i5]
    · simp only [LevelSubmesh.GatherSurfacePixelStats, i6]

/-- C7. `LevelMesh::GatherSurfacePixelStats` returns, over the surfaces of the static and
the dynamic submesh together, the number of surfaces, of dirty and of sky surfaces, and the
sums of `Width * Height` over all, the dirty and the sky surfaces, each modulo `2 ^ 32`; a
tile of width or height 0 counts 0 pixels; the submesh operation adds its amounts to the
counters passed in and leaves the submesh as it is. -/
theorem GatherSurfacePixelStats_totals (self : LevelMesh) (sub : LevelSubmesh)
    (stats : LevelMeshSurfaceStats) (hr : stats.InRange) :
    self.GatherSurfacePixelStats =
        { surfaces :=
            { total := (self.StaticMesh.Surfaces ++ self.DynamicMesh.Surfaces).length %
                4294967296,
              dirty := ((self.StaticMesh.Surfaces ++ self.DynamicMesh.Surfaces).filter
                (fun s => s.needsUpdate)).length % 4294967296,
              sky := ((self.StaticMesh.Surfaces ++ self.DynamicMesh.Surfaces).filter
                (fun s => s.bSky)).length % 4294967296 },
          pixels :=
            { total := ((self.StaticMesh.Surfaces ++ self.DynamicMesh.Surfaces).map
                LevelMeshSurface.Area).sum % 4294967296,
              dirty := (((self.StaticMesh.Surfaces ++ self.DynamicMesh.Surfaces).filter
                (fun s => s.needsUpdate)).map LevelMeshSurface.Area).sum % 4294967296,
              sky := (((self.StaticMesh.Surfaces ++ self.DynamicMesh.Surfaces).filter
                (fun s => s.bSky)).map LevelMeshSurface.Area).sum % 4294967296 } } ∧
      (∀ s : LevelMeshSurface, s.AtlasTile.Width = 0 ∨ s.AtlasTile.Height = 0 → s.Area = 0) ∧
      (sub.GatherSurfacePixelStats stats).1 = sub ∧
      (sub.GatherSurfacePixelStats stats).2 =
        { surfaces :=
            { total := (stats.surfaces.total + sub.Surfaces.length) % 4294967296,
              dirty := (stats.surfaces.dirty +
                (sub.Surfaces.filter (fun s => s.needsUpdate)).length) % 4294967296,
              sky := (stats.surfaces.sky +
                (sub.Surfaces.filter (fun s => s.bSky)).length) % 4294967296 },
          pixels :=
            { total := (stats.pixels.total +
                (sub.Surfaces.map LevelMeshSurface.Area).sum) % 4294967296,
              dirty := (stats.pixels.dirty +
                ((sub.Surfaces.filter (fun s => s.needsUpdate)).map
                  LevelMeshSurface.Area).sum) % 4294967296,
              sky := (stats.pixels.sky +
                ((sub.Surfaces.filter (fun s => s.bSky)).map
                  LevelMeshSurface.Area).sum) % 4294967296 } } := by
  refine ⟨?_, ?_, rfl, (LevelSubmesh.GatherSurfacePixelStats_adds sub stats hr).2⟩
  · have hzero : LevelMeshSurfaceStats.InRange {} := by
      unfold LevelMeshSurfaceStats.InRange
      decide
    obtain ⟨hin0, he0⟩ := LevelSubmesh.GatherSurfacePixelStats_adds self.StaticMesh {} hzero
    obtain ⟨_, he1⟩ := LevelSubmesh.GatherSurfacePixelStats_adds self.DynamicMesh _ hin0
    unfold LevelMesh.GatherSurfacePixelStats
    simp only
    rw [he1, he0]
    apply LevelMeshSurfaceStats.ext_counters <;>
      simp only [List.filter_append, List.length_append, List.map_append, List.sum_append,
        Nat.zero_add] <;> omega
  · intro s h
    unfold LevelMeshSurface.Area
    rcases h with h | h <;> simp [h]

/-- C7, instance: a mesh whose static submesh is `Sample.tiles` (three surfaces, two of them
dirty, one sky with a tile of 3 by 5) and whose dynamic submesh has no surfaces. -/
theorem GatherSurfacePixelStats_totals_witness :
    LevelMeshSurfaceStats.InRange {} ∧
      LevelMesh.GatherSurfacePixelStats { StaticMesh := Sample.tiles, DynamicMesh := Sample.bare } =
        { surfaces := { total := 3, dirty := 2, sky := 1 },
          pixels := { total := 15, dirty := 0, sky := 15 } } := by
  have hzero : LevelMeshSurfaceStats.InRange {} := by
    unfold LevelMeshSurfaceStats.InRange
    decide
  refine ⟨hzero, ?_⟩
  rw [(GatherSurfacePixelStats_totals { StaticMesh := Sample.tiles, DynamicMesh := Sample.bare }
    Sample.bare {} hzero).1]
  simp [Sample.tiles, Sample.bare, Sample.mirrored, Sample.ceiling, Sample.strip, Sample.wall,
    LevelMeshSurface.Area]

namespace LevelSubmesh

/-- One step of the first loop, in terms of `groupIndexFor` and `stepGroups`. -/
theorem assignGroups_cons (s : LevelMeshSurface) (rest : List LevelMeshSurface) (i : Nat)
    (g : List LevelMeshSmoothingGroup) :
    assignGroups (s :: rest) i g =
      ({ s with smoothingGroupIndex := groupIndexFor s g } ::
          (assignGroups rest (i + 1) (stepGroups s i g)).1,
        (assignGroups rest (i + 1) (stepGroups s i g)).2) := rfl

/-- The scan returns `-1` or the number of a group in the scanned range. -/
theorem scanGroups_range (s : LevelMeshSurface) :
    ∀ (gs : List LevelMeshSmoothingGroup) (j : Nat),
      scanGroups s gs j = -1 ∨
        ((j : Int) ≤ scanGroups s gs j ∧ scanGroups s gs j < (j : Int) + gs.length) := by
  intro gs
  induction gs with
  | nil => intro j; left; rfl
  | cons g rest ih =>
    intro j
    unfold scanGroups
    split
    · right
      refine ⟨le_refl _, ?_⟩
      simp only [List.length_cons]
      push_cast
      omega
    · rcases ih (j + 1) with h | ⟨h1, h2⟩
      · left; exact h
      · right
        simp only [List.length_cons]
        push_cast at h1 h2 ⊢
        constructor <;> omega

/-- The test of the scan reads the plane and the sector group of the surface only. -/
theorem groupMatches_congr (g : LevelMeshSmoothingGroup) (s t : LevelMeshSurface)
    (hp : s.plane = t.plane) (hg : s.sectorGroup = t.sectorGroup) :
    groupMatches g s = groupMatches g t := by
  unfold groupMatches
  rw [hp, hg]

/-- The scan reads the plane and the sector group of the surface only. -/
theorem scanGroups_congr (s t : LevelMeshSurface) (hp : s.plane = t.plane)
    (hg : s.sectorGroup = t.sectorGroup) :
    ∀ (gs : List LevelMeshSmoothingGroup) (j : Nat), scanGroups s gs j = scanGroups t gs j := by
  intro gs
  induction gs with
  | nil => intro j; rfl
  | cons g rest ih =>
    intro j
    simp only [scanGroups, groupMatches_congr g s t hp hg, ih (j + 1)]

/-- The stored group index is not negative. -/
theorem groupIndexFor_nonneg (s : LevelMeshSurface) (g : List LevelMeshSmoothingGroup) :
    0 ≤ groupIndexFor s g := by
  unfold groupIndexFor
  split
  · exact Int.natCast_nonneg _
  · rename_i h
    rcases scanGroups_range s g 0 with h1 | ⟨h1, _⟩
    · exact absurd h1 h
    · simpa using h1

/-- The surfaces after the second loop: each keeps everything but its `tileSurfaces`. -/
theorem assignTiles_get? (all : List LevelMeshSurface) (groups : List LevelMeshSmoothingGroup) :
    ∀ (l : List LevelMeshSurface) (i k : Nat),
      (assignTiles all groups l i).get? k =
        (l.get? k).map
          (fun t => { t with tileSurfaces := buildTileSurfaces all groups (i + k) t }) := by
  intro l
  induction l with
  | nil => intro i k; simp [assignTiles]
  | cons s rest ih =>
    intro i k
    cases k with
    | zero => simp [assignTiles]
    | succ k =>
      simp only [assignTiles, List.get?_cons_succ]
      rw [ih (i + 1) k]
      have : i + 1 + k = i + (k + 1) := by omega
      rw [this]

end LevelSubmesh

namespace LevelSubmesh

/-- Storing a surface in a group keeps the number of groups. -/
theorem pushSurface_length : ∀ (gs : List LevelMeshSmoothingGroup) (k i : Nat),
    (pushSurface gs k i).length = gs.length := by
  intro gs
  induction gs with
  | nil => intro k i; rfl
  | cons g rest ih =>
    intro k i
    cases k with
    | zero => rfl
    | succ k => simp [pushSurface, ih k i]

/-- The member lists after a surface is stored in group `k`. -/
theorem surfacesAt_pushSurface : ∀ (gs : List LevelMeshSmoothingGroup) (k i m : Nat),
    surfacesAt (pushSurface gs k i) m =
      if m = k ∧ k < gs.length then surfacesAt gs m ++ [i] else surfacesAt gs m := by
  intro gs
  induction gs with
  | nil => intro k i m; simp [pushSurface]
  | cons g rest ih =>
    intro k i m
    cases k with
    | zero =>
      cases m with
      | zero => simp [pushSurface, surfacesAt]
      | succ m => simp [pushSurface, surfacesAt]
    | succ k =>
      cases m with
      | zero => simp [pushSurface, surfacesAt]
      | succ m =>
        have h := ih k i m
        simp only [pushSurface, surfacesAt, List.get?_cons_succ, List.length_cons] at h ⊢
        rw [h]
        by_cases hc : m = k ∧ k < rest.length
        · have hc2 : m + 1 = k + 1 ∧ k + 1 < rest.length + 1 := ⟨by omega, by omega⟩
          rw [if_pos hc, if_pos hc2]
        · have hc2 : ¬ (m + 1 = k + 1 ∧ k + 1 < rest.length + 1) := by
            intro h3
            exact hc ⟨by omega, by omega⟩
          rw [if_neg hc, if_neg hc2]

/-- A new group without members does not change the member lists. -/
theorem surfacesAt_append_new (gs : List LevelMeshSmoothingGroup) (p : FVector4) (sg : Int)
    (m : Nat) :
    surfacesAt (gs ++ [{ plane := p, sectorGroup := sg }]) m = surfacesAt gs m := by
  unfold surfacesAt
  simp only [List.get?_eq_getElem?]
  by_cases h : m < gs.length
  · rw [List.getElem?_append_left h]
  · have hn : gs[m]? = none := List.getElem?_eq_none (not_lt.mp h)
    rw [hn]
    by_cases h2 : m = gs.length
    · subst h2
      simp
    · have : (gs ++ [({ plane := p, sectorGroup := sg } : LevelMeshSmoothingGroup)])[m]? =
          none := by
        apply List.getElem?_eq_none
        simp only [List.length_append, List.length_singleton]
        omega
      rw [this]

/-- The group index stored for a surface names a group of the array after the step. -/
theorem groupIndexFor_lt (s : LevelMeshSurface) (g : List LevelMeshSmoothingGroup) :
    (groupIndexFor s g).toNat <
      (if scanGroups s g 0 = -1 then
        g ++ [({ plane := s.plane, sectorGroup := s.sectorGroup } : LevelMeshSmoothingGroup)]
      else g).length := by
  unfold groupIndexFor
  split
  · simp
  · rename_i h
    rcases scanGroups_range s g 0 with h1 | ⟨h1, h2⟩
    · exact absurd h1 h
    · simp only [Nat.cast_zero, zero_add] at h1 h2
      omega

/-- The number of groups after one step of the first loop. -/
theorem stepGroups_length (s : LevelMeshSurface) (i : Nat) (g : List LevelMeshSmoothingGroup) :
    (stepGroups s i g).length = if scanGroups s g 0 = -1 then g.length + 1 else g.length := by
  unfold stepGroups
  rw [pushSurface_length]
  split <;> simp

/-- The group index stored for a surface names a group of the array after the step. -/
theorem groupIndexFor_lt_stepGroups (s : LevelMeshSurface) (i : Nat)
    (g : List LevelMeshSmoothingGroup) :
    (groupIndexFor s g).toNat < (stepGroups s i g).length := by
  have h := groupIndexFor_lt s g
  unfold stepGroups
  rw [pushSurface_length]
  exact h

/-- The member lists after one step of the first loop. -/
theorem surfacesAt_stepGroups (s : LevelMeshSurface) (i : Nat)
    (g : List LevelMeshSmoothingGroup) (m : Nat) :
    surfacesAt (stepGroups s i g) m =
      if groupIndexFor s g = (m : Int) then surfacesAt g m ++ [i] else surfacesAt g m := by
  have hlt := groupIndexFor_lt s g
  have hnn := groupIndexFor_nonneg s g
  unfold stepGroups
  rw [surfacesAt_pushSurface]
  have hsame : surfacesAt (if scanGroups s g 0 = -1 then
      g ++ [({ plane := s.plane, sectorGroup := s.sectorGroup } : LevelMeshSmoothingGroup)]
      else g) m = surfacesAt g m := by
    split
    · exact surfacesAt_append_new g _ _ m
    · rfl
  rw [hsame]
  by_cases hc : groupIndexFor s g = (m : Int)
  · rw [if_pos hc, if_pos ⟨by omega, hlt⟩]
  · rw [if_neg hc, if_neg]
    intro h3
    exact hc (by omega)

/-- The member list of every group after the first loop: the members it had, followed by
the numbers of the processed surfaces that were given its index, in increasing order. -/
theorem surfacesAt_assignGroups : ∀ (l : List LevelMeshSurface) (i : Nat)
    (g : List LevelMeshSmoothingGroup) (m : Nat),
    surfacesAt (assignGroups l i g).2 m =
      surfacesAt g m ++ membersFrom (assignGroups l i g).1 i m := by
  intro l
  induction l with
  | nil => intro i g m; simp [assignGroups, membersFrom]
  | cons s rest ih =>
    intro i g m
    rw [assignGroups_cons]
    simp only [membersFrom]
    rw [ih (i + 1) (stepGroups s i g) m, surfacesAt_stepGroups]
    by_cases hc : groupIndexFor s g = (m : Int)
    · simp [hc]
    · simp [hc]

/-- The numbers listed by `membersFrom`. -/
theorem mem_membersFrom : ∀ (l : List LevelMeshSurface) (i m x : Nat),
    x ∈ membersFrom l i m ↔
      ∃ k s, l.get? k = some s ∧ s.smoothingGroupIndex = (m : Int) ∧ x = i + k := by
  intro l
  induction l with
  | nil => intro i m x; simp [membersFrom]
  | cons s rest ih =>
    intro i m x
    have hrest := ih (i + 1) m x
    constructor
    · intro hx
      unfold membersFrom at hx
      split at hx
      · rename_i hs
        rcases List.mem_cons.mp hx with h | h
        · exact ⟨0, s, rfl, hs, by omega⟩
        · obtain ⟨k, t, hk, ht, hxk⟩ := hrest.mp h
          exact ⟨k + 1, t, by simpa using hk, ht, by omega⟩
      · obtain ⟨k, t, hk, ht, hxk⟩ := hrest.mp hx
        exact ⟨k + 1, t, by simpa using hk, ht, by omega⟩
    · rintro ⟨k, t, hk, ht, hxk⟩
      unfold membersFrom
      cases k with
      | zero =>
        simp only [List.get?_cons_zero, Option.some.injEq] at hk
        subst hk
        rw [if_pos ht]
        exact List.mem_cons.mpr (Or.inl (by omega))
      | succ k =>
        simp only [List.get?_cons_succ] at hk
        have hin : x ∈ membersFrom rest (i + 1) m := hrest.mpr ⟨k, t, hk, ht, by omega⟩
        split
        · exact List.mem_cons.mpr (Or.inr hin)
        · exact hin

/-- The first loop never removes a group. -/
theorem assignGroups_length_le : ∀ (l : List LevelMeshSurface) (i : Nat)
    (g : List LevelMeshSmoothingGroup),
    g.length ≤ (assignGroups l i g).2.length ∧
      (assignGroups l i g).2.length ≤ g.length + l.length := by
  intro l
  induction l with
  | nil => intro i g; simp [assignGroups]
  | cons s rest ih =>
    intro i g
    rw [assignGroups_cons]
    obtain ⟨h1, h2⟩ := ih (i + 1) (stepGroups s i g)
    have hs := stepGroups_length s i g
    simp only [List.length_cons]
    split at hs <;> constructor <;> omega

/-- Every group index stored by the first loop names a group of the final array. -/
theorem assignGroups_index_valid : ∀ (l : List LevelMeshSurface) (i : Nat)
    (g : List LevelMeshSmoothingGroup) (k : Nat) (t : LevelMeshSurface),
    (assignGroups l i g).1.get? k = some t →
    0 ≤ t.smoothingGroupIndex ∧ t.smoothingGroupIndex.toNat < (assignGroups l i g).2.length := by
  intro l
  induction l with
  | nil => intro i g k t h; simp [assignGroups] at h
  | cons s rest ih =>
    intro i g k t h
    rw [assignGroups_cons] at h ⊢
    cases k with
    | zero =>
      simp only [List.get?_cons_zero, Option.some.injEq] at h
      subst h
      refine ⟨groupIndexFor_nonneg s g, ?_⟩
      have h1 := (assignGroups_length_le rest (i + 1) (stepGroups s i g)).1
      have h2 := groupIndexFor_lt_stepGroups s i g
      simp only
      omega
    | succ k =>
      simp only [List.get?_cons_succ] at h
      exact ih (i + 1) (stepGroups s i g) k t h

/-- The first loop keeps the number of surfaces. -/
theorem assignGroups_length : ∀ (l : List LevelMeshSurface) (i : Nat)
    (g : List LevelMeshSmoothingGroup), (assignGroups l i g).1.length = l.length := by
  intro l
  induction l with
  | nil => intro i g; rfl
  | cons s rest ih => intro i g; rw [assignGroups_cons]; simp [ih]

/-- The second loop keeps the number of surfaces. -/
theorem assignTiles_length (all : List LevelMeshSurface)
    (groups : List LevelMeshSmoothingGroup) :
    ∀ (l : List LevelMeshSurface) (i : Nat), (assignTiles all groups l i).length = l.length := by
  intro l
  induction l with
  | nil => intro i; rfl
  | cons s rest ih => intro i; simp [assignTiles, ih]

end LevelSubmesh

namespace LevelSubmesh

/-- The surfaces after `BuildSmoothingGroups`: those of the first loop with the tile lists of
the second. -/
theorem BuildSmoothingGroups_get? (self : LevelSubmesh) (k : Nat) :
    self.BuildSmoothingGroups.Surfaces.get? k =
      ((assignGroups self.Surfaces 0 []).1.get? k).map
        (fun t => { t with tileSurfaces :=
          buildTileSurfaces (assignGroups self.Surfaces 0 []).1 self.smoothingGroups k t }) := by
  unfold BuildSmoothingGroups smoothingGroups
  simp only
  rw [assignTiles_get?]
  simp

/-- The group of a surface after the first loop exists, and its members are the surfaces
that were given its index. -/
theorem group_of_surface (self : LevelSubmesh) (k : Nat) (t : LevelMeshSurface)
    (h : (assignGroups self.Surfaces 0 []).1.get? k = some t) :
    ∃ g, elemAt self.smoothingGroups t.smoothingGroupIndex = some g ∧
      self.smoothingGroups.get? t.smoothingGroupIndex.toNat = some g ∧
      ∀ x, x ∈ g.surfaces ↔
        ∃ s, (assignGroups self.Surfaces 0 []).1.get? x = some s ∧
          s.smoothingGroupIndex = t.smoothingGroupIndex := by
  obtain ⟨h0, hlt⟩ := assignGroups_index_valid self.Surfaces 0 [] k t h
  have hget : self.smoothingGroups.get? t.smoothingGroupIndex.toNat =
      some (self.smoothingGroups.get ⟨t.smoothingGroupIndex.toNat, hlt⟩) :=
    List.get?_eq_get hlt
  refine ⟨self.smoothingGroups.get ⟨t.smoothingGroupIndex.toNat, hlt⟩, ?_, hget, ?_⟩
  · unfold elemAt
    rw [if_pos h0]
    exact hget
  · intro x
    have hs := surfacesAt_assignGroups self.Surfaces 0 [] t.smoothingGroupIndex.toNat
    have hs2 : surfacesAt self.smoothingGroups t.smoothingGroupIndex.toNat =
        (self.smoothingGroups.get ⟨t.smoothingGroupIndex.toNat, hlt⟩).surfaces := by
      unfold surfacesAt
      rw [hget]
    have hs3 : surfacesAt [] t.smoothingGroupIndex.toNat = [] := rfl
    unfold smoothingGroups at hs2
    rw [hs2, hs3, List.nil_append] at hs
    unfold smoothingGroups
    rw [hs, mem_membersFrom]
    have hcast : ((t.smoothingGroupIndex.toNat : Nat) : Int) = t.smoothingGroupIndex :=
      Int.toNat_of_nonneg h0
    constructor
    · rintro ⟨k2, s, hk2, hidx, hx⟩
      refine ⟨s, ?_, by rw [hidx, hcast]⟩
      have : x = k2 := by omega
      rw [this]
      exact hk2
    · rintro ⟨s, hsx, hidx⟩
      exact ⟨x, s, hsx, by rw [hidx, hcast], by omega⟩

/-- Storing a surface in the second group of an array. -/
theorem pushSurface_one (g : LevelMeshSmoothingGroup) (gs : List LevelMeshSmoothingGroup)
    (i : Nat) : pushSurface (g :: gs) 1 i = g :: pushSurface gs 0 i := rfl

/-- The first loop on the surfaces of `Sample.tiles`. -/
theorem sample_tiles_pass1 :
    assignGroups Sample.tiles.Surfaces 0 [] =
      ([{ Sample.mirrored with smoothingGroupIndex := 0 },
        { Sample.ceiling with smoothingGroupIndex := 1 },
        { Sample.strip with smoothingGroupIndex := 0 }],
       [{ plane := ⟨0, 0, 1, 0⟩, sectorGroup := 0, surfaces := [0, 2] },
        { plane := ⟨0, 0, -1, -8⟩, sectorGroup := 0, surfaces := [1] }]) := by
  simp [assignGroups, scanGroups, groupMatches, pushSurface, pushSurface_one, Sample.tiles,
    Sample.mirrored, Sample.ceiling, Sample.strip, Sample.wall, FVector3.dot, FVector3.scale,
    FVector4.XYZ]
  norm_num [pushSurface, pushSurface_one, scanGroups, groupMatches, FVector3.dot,
    FVector3.scale, FVector4.XYZ]

/-- The tiles of `Sample.tiles` after `BuildSmoothingGroups`. -/
theorem sample_tiles_built :
    Sample.tiles.BuildSmoothingGroups.Surfaces =
      [{ Sample.mirrored with smoothingGroupIndex := 0, tileSurfaces := [0] },
       { Sample.ceiling with smoothingGroupIndex := 1, tileSurfaces := [1] },
       { Sample.strip with smoothingGroupIndex := 0, tileSurfaces := [0, 2] }] := by
  unfold BuildSmoothingGroups
  simp only [sample_tiles_pass1]
  simp [assignTiles, buildTileSurfaces, keepsTileSurface, ToUV, elemAt, Sample.tiles,
    Sample.mirrored, Sample.ceiling, Sample.strip, Sample.wall, FVector3.dot, FVector3.sub,
    List.filter]
  norm_num

/-- The smoothing groups of `Sample.tiles`. -/
theorem sample_tiles_groups :
    Sample.tiles.smoothingGroups =
      [{ plane := ⟨0, 0, 1, 0⟩, sectorGroup := 0, surfaces := [0, 2] },
       { plane := ⟨0, 0, -1, -8⟩, sectorGroup := 0, surfaces := [1] }] := by
  unfold smoothingGroups
  rw [sample_tiles_pass1]

end LevelSubmesh

namespace LevelSubmesh

end LevelSubmesh

/-- C5. After `BuildSmoothingGroups` on any surface list the number of surfaces is unchanged
and every surface (at place `i`) has a `smoothingGroupIndex` that names one of the groups
built, is a member of that group and of no other group, and is in its own `tileSurfaces`. -/
theorem BuildSmoothingGroups_index_valid (self : LevelSubmesh) (i : Nat) (S : LevelMeshSurface)
    (h : self.BuildSmoothingGroups.Surfaces.get? i = some S) :
    self.BuildSmoothingGroups.Surfaces.length = self.Surfaces.length ∧
      0 ≤ S.smoothingGroupIndex ∧ S.smoothingGroupIndex < self.smoothingGroups.length ∧
      (∀ m g, self.smoothingGroups.get? m = some g →
        (i ∈ g.surfaces ↔ (m : Int) = S.smoothingGroupIndex)) ∧
      i ∈ S.tileSurfaces := by
  have hlen : self.BuildSmoothingGroups.Surfaces.length = self.Surfaces.length := by
    unfold LevelSubmesh.BuildSmoothingGroups
    simp only
    rw [LevelSubmesh.assignTiles_length, LevelSubmesh.assignGroups_length]
  rw [LevelSubmesh.BuildSmoothingGroups_get?] at h
  cases ht : (LevelSubmesh.assignGroups self.Surfaces 0 []).1.get? i with
  | none => rw [ht] at h; simp at h
  | some t =>
    rw [ht] at h
    simp only [Option.map_some', Option.some.injEq] at h
    obtain ⟨h0, hlt⟩ := LevelSubmesh.assignGroups_index_valid self.Surfaces 0 [] i t ht
    obtain ⟨g, hg1, hg2, hg3⟩ := LevelSubmesh.group_of_surface self i t ht
    have hidx : S.smoothingGroupIndex = t.smoothingGroupIndex := by rw [← h]
    have htiles : S.tileSurfaces =
        LevelSubmesh.buildTileSurfaces (LevelSubmesh.assignGroups self.Surfaces 0 []).1
          self.smoothingGroups i t := by rw [← h]
    refine ⟨hlen, by rw [hidx]; exact h0, ?_, ?_, ?_⟩
    · rw [hidx]
      unfold LevelSubmesh.smoothingGroups
      omega
    · intro m g' hm
      rw [hidx]
      have hs := LevelSubmesh.surfacesAt_assignGroups self.Surfaces 0 [] m
      have hs2 : LevelSubmesh.surfacesAt (LevelSubmesh.assignGroups self.Surfaces 0 []).2 m =
          g'.surfaces := by
        unfold LevelSubmesh.smoothingGroups at hm
        unfold LevelSubmesh.surfacesAt
        rw [hm]
      have hs3 : LevelSubmesh.surfacesAt [] m = [] := rfl
      rw [hs2, hs3, List.nil_append] at hs
      rw [hs, LevelSubmesh.mem_membersFrom]
      constructor
      · rintro ⟨k, s, hk, hsm, hik⟩
        have hki : k = i := by omega
        subst hki
        rw [ht] at hk
        have : t = s := Option.some.inj hk
        rw [this, hsm]
      · intro hm2
        exact ⟨i, t, ht, hm2.symm, by omega⟩
    · rw [htiles]
      unfold LevelSubmesh.buildTileSurfaces
      rw [hg1]
      simp only
      rw [List.mem_filter]
      refine ⟨(hg3 i).mpr ⟨t, ht, rfl⟩, ?_⟩
      unfold LevelSubmesh.keepsTileSurface
      rw [ht]
      simp

/-- C5, instance: surface 1 of `Sample.tiles` after `BuildSmoothingGroups` has group index 1
of the 2 groups and the tile list `[1]`. -/
theorem BuildSmoothingGroups_index_valid_witness :
    Sample.tiles.BuildSmoothingGroups.Surfaces.get? 1 =
        some { Sample.ceiling with smoothingGroupIndex := 1, tileSurfaces := [1] } ∧
      Sample.tiles.smoothingGroups.length = 2 ∧
      Sample.tiles.BuildSmoothingGroups.Surfaces.length = Sample.tiles.Surfaces.length :=
  have h : Sample.tiles.BuildSmoothingGroups.Surfaces.get? 1 =
      some { Sample.ceiling with smoothingGroupIndex := 1, tileSurfaces := [1] } := by
    rw [LevelSubmesh.sample_tiles_built]; rfl
  ⟨h, by rw [LevelSubmesh.sample_tiles_groups]; rfl,
    (BuildSmoothingGroups_index_valid Sample.tiles 1 _ h).1⟩

/-- The test of the second loop implies that the spanned box overlaps the unit square, and
is implied by it when the first corner projects below the second on both axes. -/
theorem LevelSubmesh.boxOverlaps_of_kept (a b : FVector2) :
    (0 ≤ b.X ∧ 0 ≤ b.Y ∧ a.X ≤ 1 ∧ a.Y ≤ 1 → LevelSubmesh.boxOverlapsUnitSquare a b) ∧
      (a.X ≤ b.X → a.Y ≤ b.Y →
        (LevelSubmesh.boxOverlapsUnitSquare a b ↔ 0 ≤ b.X ∧ 0 ≤ b.Y ∧ a.X ≤ 1 ∧ a.Y ≤ 1)) := by
  unfold LevelSubmesh.boxOverlapsUnitSquare
  constructor
  · rintro ⟨h1, h2, h3, h4⟩
    exact ⟨le_trans (min_le_left _ _) h3, le_trans h1 (le_max_right _ _),
      le_trans (min_le_left _ _) h4, le_trans h2 (le_max_right _ _)⟩
  · intro hx hy
    rw [min_eq_left hx, max_eq_right hx, min_eq_left hy, max_eq_right hy]
    constructor
    · rintro ⟨h1, h2, h3, h4⟩; exact ⟨h2, h4, h1, h3⟩
    · rintro ⟨h1, h2, h3, h4⟩; exact ⟨h3, h1, h4, h2⟩

/-- C4, failing input evaluated: in `Sample.tiles` the target surface 0 has its first
projection axis pointing against the x axis; surface 2 is a member of its smoothing group,
its corners project to `(1/2, 1/2)` and `(-1/2, 1/2)`, so the spanned box overlaps the unit
square, and yet surface 2 is not in the tile list of surface 0. -/
theorem BuildSmoothingGroups_drops_overlapping_member :
    Sample.tiles.BuildSmoothingGroups.Surfaces.get? 0 =
        some { Sample.mirrored with smoothingGroupIndex := 0, tileSurfaces := [0] } ∧
      Sample.tiles.BuildSmoothingGroups.Surfaces.get? 2 =
        some { Sample.strip with smoothingGroupIndex := 0, tileSurfaces := [0, 2] } ∧
      LevelSubmesh.ToUV Sample.strip.bounds.min
        { Sample.mirrored with smoothingGroupIndex := 0, tileSurfaces := [0] } = ⟨1 / 2, 1 / 2⟩ ∧
      LevelSubmesh.ToUV Sample.strip.bounds.max
        { Sample.mirrored with smoothingGroupIndex := 0, tileSurfaces := [0] } = ⟨-1 / 2, 1 / 2⟩ ∧
      LevelSubmesh.boxOverlapsUnitSquare ⟨1 / 2, 1 / 2⟩ ⟨-1 / 2, 1 / 2⟩ ∧
      2 ∉ ({ Sample.mirrored with smoothingGroupIndex := 0, tileSurfaces := [0] } :
        LevelMeshSurface).tileSurfaces := by
  refine ⟨?_, ?_, ?_, ?_, ?_, ?_⟩
  · rw [LevelSubmesh.sample_tiles_built]; rfl
  · rw [LevelSubmesh.sample_tiles_built]; rfl
  · simp [LevelSubmesh.ToUV, Sample.strip, Sample.mirrored, Sample.wall, FVector3.sub,
      FVector3.dot]
  · simp [LevelSubmesh.ToUV, Sample.strip, Sample.mirrored, Sample.wall, FVector3.sub,
      FVector3.dot]
    norm_num
  · unfold LevelSubmesh.boxOverlapsUnitSquare
    norm_num
  · simp

/-- What the second loop computes: the tile list of every target surface `T` (at place `i`)
contains exactly the members `S` of the smoothing group of `T` for which `S` is `T` itself
or `ToUV(S.bounds.max, T)` has no negative coordinate and `ToUV(S.bounds.min, T)` has no
coordinate above 1.  A member that passes this test has a spanned box that overlaps the unit
square; the converse holds when the min corner does not project above the max corner on
either axis, so the loop never keeps a member whose box does not overlap. -/
theorem BuildSmoothingGroups_tileSurfaces_iff (self : LevelSubmesh) (i : Nat)
    (T : LevelMeshSurface) (hT : self.BuildSmoothingGroups.Surfaces.get? i = some T) (p : Nat) :
    (p ∈ T.tileSurfaces ↔
        ∃ S, self.BuildSmoothingGroups.Surfaces.get? p = some S ∧
          S.smoothingGroupIndex = T.smoothingGroupIndex ∧
          (p = i ∨
            (0 ≤ (LevelSubmesh.ToUV S.bounds.max T).X ∧ 0 ≤ (LevelSubmesh.ToUV S.bounds.max T).Y ∧
              (LevelSubmesh.ToUV S.bounds.min T).X ≤ 1 ∧
              (LevelSubmesh.ToUV S.bounds.min T).Y ≤ 1))) ∧
      ∀ S, self.BuildSmoothingGroups.Surfaces.get? p = some S →
        ((0 ≤ (LevelSubmesh.ToUV S.bounds.max T).X ∧ 0 ≤ (LevelSubmesh.ToUV S.bounds.max T).Y ∧
            (LevelSubmesh.ToUV S.bounds.min T).X ≤ 1 ∧
            (LevelSubmesh.ToUV S.bounds.min T).Y ≤ 1) →
          LevelSubmesh.boxOverlapsUnitSquare (LevelSubmesh.ToUV S.bounds.min T)
            (LevelSubmesh.ToUV S.bounds.max T)) ∧
        ((LevelSubmesh.ToUV S.bounds.min T).X ≤ (LevelSubmesh.ToUV S.bounds.max T).X →
          (LevelSubmesh.ToUV S.bounds.min T).Y ≤ (LevelSubmesh.ToUV S.bounds.max T).Y →
          (LevelSubmesh.boxOverlapsUnitSquare (LevelSubmesh.ToUV S.bounds.min T)
              (LevelSubmesh.ToUV S.bounds.max T) ↔
            0 ≤ (LevelSubmesh.ToUV S.bounds.max T).X ∧
              0 ≤ (LevelSubmesh.ToUV S.bounds.max T).Y ∧
              (LevelSubmesh.ToUV S.bounds.min T).X ≤ 1 ∧
              (LevelSubmesh.ToUV S.bounds.min T).Y ≤ 1)) := by
  refine ⟨?_, fun S _ => LevelSubmesh.boxOverlaps_of_kept _ _⟩
  rw [LevelSubmesh.BuildSmoothingGroups_get?] at hT
  cases ht : (LevelSubmesh.assignGroups self.Surfaces 0 []).1.get? i with
  | none => rw [ht] at hT; simp at hT
  | some t =>
    rw [ht] at hT
    simp only [Option.map_some', Option.some.injEq] at hT
    obtain ⟨g, hg1, _, hg3⟩ := LevelSubmesh.group_of_surface self i t ht
    have hidx : T.smoothingGroupIndex = t.smoothingGroupIndex := by rw [← hT]
    have htiles : T.tileSurfaces = g.surfaces.filter
        (LevelSubmesh.keepsTileSurface (LevelSubmesh.assignGroups self.Surfaces 0 []).1 i t) := by
      rw [← hT]
      simp only [LevelSubmesh.buildTileSurfaces, hg1]
    have huv : ∀ v, LevelSubmesh.ToUV v T = LevelSubmesh.ToUV v t := by
      intro v; rw [← hT]; rfl
    rw [htiles, List.mem_filter, hg3 p, LevelSubmesh.BuildSmoothingGroups_get?]
    cases hs : (LevelSubmesh.assignGroups self.Surfaces 0 []).1.get? p with
    | none => simp
    | some s =>
      simp only [Option.map_some', Option.some.injEq, exists_eq_left', huv, hidx]
      unfold LevelSubmesh.keepsTileSurface
      rw [hs]
      simp only [Option.some.injEq, exists_eq_left', Bool.not_eq_true', Bool.and_eq_false_imp,
        decide_eq_true_eq, Bool.or_eq_false_iff, decide_eq_false_iff_not, not_lt, ne_eq]
      constructor
      · rintro ⟨h1, h2⟩
        refine ⟨h1, ?_⟩
        by_cases hp : p = i
        · exact Or.inl hp
        · obtain ⟨⟨⟨a, b⟩, c⟩, d⟩ := h2 hp
          exact Or.inr ⟨a, b, c, d⟩
      · rintro ⟨h1, h2⟩
        refine ⟨h1, fun hp => ?_⟩
        rcases h2 with h2 | ⟨a, b, c, d⟩
        · exact absurd h2 hp
        · exact ⟨⟨⟨a, b⟩, c⟩, d⟩

namespace LevelSubmesh

/-- Reading a mapped list. -/
theorem get?_map_eq {α β : Type} (f : α → β) (l : List α) (k : Nat) :
    (l.map f).get? k = (l.get? k).map f := by
  simp [List.get?_eq_getElem?]

/-- The first loop reads nothing of a surface that `BuildSmoothingGroups` overwrites. -/
theorem assignGroups_congr : ∀ (l1 l2 : List LevelMeshSurface) (i : Nat)
    (g : List LevelMeshSmoothingGroup),
    l1.map LevelMeshSurface.withoutGroup = l2.map LevelMeshSurface.withoutGroup →
    (assignGroups l1 i g).2 = (assignGroups l2 i g).2 ∧
      (assignGroups l1 i g).1.map LevelMeshSurface.withoutTiles =
        (assignGroups l2 i g).1.map LevelMeshSurface.withoutTiles := by
  intro l1
  induction l1 with
  | nil =>
    intro l2 i g h
    cases l2 with
    | nil => exact ⟨rfl, rfl⟩
    | cons t r2 => simp at h
  | cons s r1 ih =>
    intro l2 i g h
    cases l2 with
    | nil => simp at h
    | cons t r2 =>
      simp only [List.map_cons, List.cons.injEq] at h
      obtain ⟨hst, hrest⟩ := h
      have hp : s.plane = t.plane :=
        (congrArg LevelMeshSurface.plane hst : s.withoutGroup.plane = t.withoutGroup.plane)
      have hg : s.sectorGroup = t.sectorGroup :=
        (congrArg LevelMeshSurface.sectorGroup hst :
          s.withoutGroup.sectorGroup = t.withoutGroup.sectorGroup)
      have hscan : scanGroups s g 0 = scanGroups t g 0 := scanGroups_congr s t hp hg g 0
      have hidx : groupIndexFor s g = groupIndexFor t g := by
        unfold groupIndexFor; rw [hscan]
      have hstep : stepGroups s i g = stepGroups t i g := by
        unfold stepGroups; rw [hscan, hidx, hp, hg]
      rw [assignGroups_cons, assignGroups_cons, hstep, hidx]
      obtain ⟨h1, h2⟩ := ih r2 (i + 1) (stepGroups t i g) hrest
      refine ⟨h1, ?_⟩
      simp only [List.map_cons, List.cons.injEq]
      refine ⟨?_, h2⟩
      show ({ s.withoutGroup with smoothingGroupIndex := groupIndexFor t g } : LevelMeshSurface) =
        { t.withoutGroup with smoothingGroupIndex := groupIndexFor t g }
      rw [hst]

/-- The first loop overwrites the group index of a surface only. -/
theorem assignGroups_withoutGroup : ∀ (l : List LevelMeshSurface) (i : Nat)
    (g : List LevelMeshSmoothingGroup),
    (assignGroups l i g).1.map LevelMeshSurface.withoutGroup =
      l.map LevelMeshSurface.withoutGroup := by
  intro l
  induction l with
  | nil => intro i g; rfl
  | cons s rest ih =>
    intro i g
    rw [assignGroups_cons]
    simp only [List.map_cons, List.cons.injEq]
    exact ⟨rfl, ih (i + 1) (stepGroups s i g)⟩

/-- The test of the second loop reads nothing that `BuildSmoothingGroups` overwrites. -/
theorem keepsTileSurface_congr (all1 all2 : List LevelMeshSurface) (i : Nat)
    (t1 t2 : LevelMeshSurface)
    (hall : all1.map LevelMeshSurface.withoutTiles = all2.map LevelMeshSurface.withoutTiles)
    (ht : t1.withoutTiles = t2.withoutTiles) (p : Nat) :
    keepsTileSurface all1 i t1 p = keepsTileSurface all2 i t2 p := by
  have huv : ∀ v, ToUV v t1 = ToUV v t2 := by
    intro v
    show ToUV v t1.withoutTiles = ToUV v t2.withoutTiles
    rw [ht]
  have hget : (all1.get? p).map LevelMeshSurface.withoutTiles =
      (all2.get? p).map LevelMeshSurface.withoutTiles := by
    rw [← get?_map_eq, ← get?_map_eq, hall]
  unfold keepsTileSurface
  cases h1 : all1.get? p with
  | none =>
    cases h2 : all2.get? p with
    | none => rfl
    | some s2 => rw [h1, h2] at hget; simp at hget
  | some s1 =>
    cases h2 : all2.get? p with
    | none => rw [h1, h2] at hget; simp at hget
    | some s2 =>
      rw [h1, h2] at hget
      simp only [Option.map_some', Option.some.injEq] at hget
      have hb : s1.bounds = s2.bounds :=
        (congrArg LevelMeshSurface.bounds hget : s1.withoutTiles.bounds = s2.withoutTiles.bounds)
      simp only [hb, huv]

/-- The second loop reads nothing that it overwrites. -/
theorem assignTiles_congr (all1 all2 : List LevelMeshSurface)
    (groups : List LevelMeshSmoothingGroup)
    (hall : all1.map LevelMeshSurface.withoutTiles = all2.map LevelMeshSurface.withoutTiles) :
    ∀ (l1 l2 : List LevelMeshSurface) (i : Nat),
      l1.map LevelMeshSurface.withoutTiles = l2.map LevelMeshSurface.withoutTiles →
      assignTiles all1 groups l1 i = assignTiles all2 groups l2 i := by
  intro l1
  induction l1 with
  | nil =>
    intro l2 i h
    cases l2 with
    | nil => rfl
    | cons t r2 => simp at h
  | cons s r1 ih =>
    intro l2 i h
    cases l2 with
    | nil => simp at h
    | cons t r2 =>
      simp only [List.map_cons, List.cons.injEq] at h
      obtain ⟨hst, hrest⟩ := h
      have hidx : s.smoothingGroupIndex = t.smoothingGroupIndex :=
        (congrArg LevelMeshSurface.smoothingGroupIndex hst :
          s.withoutTiles.smoothingGroupIndex = t.withoutTiles.smoothingGroupIndex)
      have hf : keepsTileSurface all1 i s = keepsTileSurface all2 i t :=
        funext (keepsTileSurface_congr all1 all2 i s t hall hst)
      have hb : buildTileSurfaces all1 groups i s = buildTileSurfaces all2 groups i t := by
        unfold buildTileSurfaces
        rw [hidx, hf]
      simp only [assignTiles, List.cons.injEq]
      refine ⟨?_, ih r2 (i + 1) hrest⟩
      rw [hb]
      show ({ s.withoutTiles with tileSurfaces := buildTileSurfaces all2 groups i t } :
          LevelMeshSurface) =
        { t.withoutTiles with tileSurfaces := buildTileSurfaces all2 groups i t }
      rw [hst]

/-- The second loop overwrites the tile list of a surface only. -/
theorem assignTiles_withoutTiles (all : List LevelMeshSurface)
    (groups : List LevelMeshSmoothingGroup) :
    ∀ (l : List LevelMeshSurface) (i : Nat),
      (assignTiles all groups l i).map LevelMeshSurface.withoutTiles =
        l.map LevelMeshSurface.withoutTiles := by
  intro l
  induction l with
  | nil => intro i; rfl
  | cons s rest ih =>
    intro i
    simp only [assignTiles, List.map_cons, List.cons.injEq]
    exact ⟨rfl, ih (i + 1)⟩

/-- Surfaces that agree up to their tile lists agree up to tile lists and group index. -/
theorem withoutGroup_of_withoutTiles (l1 l2 : List LevelMeshSurface)
    (h : l1.map LevelMeshSurface.withoutTiles = l2.map LevelMeshSurface.withoutTiles) :
    l1.map LevelMeshSurface.withoutGroup = l2.map LevelMeshSurface.withoutGroup := by
  have e : ∀ l : List LevelMeshSurface, l.map LevelMeshSurface.withoutGroup =
      (l.map LevelMeshSurface.withoutTiles).map LevelMeshSurface.withoutGroup := by
    intro l
    rw [List.map_map]
    rfl
  rw [e l1, e l2, h]

/-- The surfaces after `BuildSmoothingGroups` agree with the ones before up to tile lists
and group index. -/
theorem BuildSmoothingGroups_withoutGroup (self : LevelSubmesh) :
    self.BuildSmoothingGroups.Surfaces.map LevelMeshSurface.withoutGroup =
      self.Surfaces.map LevelMeshSurface.withoutGroup := by
  unfold BuildSmoothingGroups
  simp only
  rw [withoutGroup_of_withoutTiles _ _ (assignTiles_withoutTiles _ _ _ 0),
    assignGroups_withoutGroup]

end LevelSubmesh

/-- C6. `BuildSmoothingGroups` run a second time on the state produced by the first run gives
that state again (every `smoothingGroupIndex` and every `tileSurfaces` list identical, same
order), and a run changes nothing of the submesh but the surfaces, of which it keeps the
number and changes no field other than `smoothingGroupIndex` and `tileSurfaces`. -/
theorem BuildSmoothingGroups_idempotent (self : LevelSubmesh) :
    self.BuildSmoothingGroups.BuildSmoothingGroups = self.BuildSmoothingGroups ∧
      self.BuildSmoothingGroups =
        { self with Surfaces := self.BuildSmoothingGroups.Surfaces } ∧
      self.BuildSmoothingGroups.Surfaces.length = self.Surfaces.length ∧
      ∀ (k : Nat) (S S' : LevelMeshSurface), self.Surfaces.get? k = some S →
        self.BuildSmoothingGroups.Surfaces.get? k = some S' →
        S' = { S with smoothingGroupIndex := S'.smoothingGroupIndex,
                      tileSurfaces := S'.tileSurfaces } := by
  have hwg := LevelSubmesh.BuildSmoothingGroups_withoutGroup self
  refine ⟨?_, rfl, ?_, ?_⟩
  · have hA := LevelSubmesh.assignGroups_congr self.BuildSmoothingGroups.Surfaces self.Surfaces
      0 [] hwg
    obtain ⟨hg, hs⟩ := hA
    have hC := LevelSubmesh.assignTiles_congr _ _
      (LevelSubmesh.assignGroups self.Surfaces 0 []).2 hs _ _ 0 hs
    have hsurf : self.BuildSmoothingGroups.BuildSmoothingGroups.Surfaces =
        self.BuildSmoothingGroups.Surfaces := by
      show LevelSubmesh.assignTiles
          (LevelSubmesh.assignGroups self.BuildSmoothingGroups.Surfaces 0 []).1
          (LevelSubmesh.assignGroups self.BuildSmoothingGroups.Surfaces 0 []).2
          (LevelSubmesh.assignGroups self.BuildSmoothingGroups.Surfaces 0 []).1 0 =
        LevelSubmesh.assignTiles (LevelSubmesh.assignGroups self.Surfaces 0 []).1
          (LevelSubmesh.assignGroups self.Surfaces 0 []).2
          (LevelSubmesh.assignGroups self.Surfaces 0 []).1 0
      rw [hg]
      exact hC
    show ({ self.BuildSmoothingGroups with
        Surfaces := self.BuildSmoothingGroups.BuildSmoothingGroups.Surfaces } : LevelSubmesh) =
      self.BuildSmoothingGroups
    rw [hsurf]
  · have := congrArg List.length hwg
    simpa using this
  · intro k S S' hS hS'
    have hk : (self.BuildSmoothingGroups.Surfaces.map LevelMeshSurface.withoutGroup).get? k =
        (self.Surfaces.map LevelMeshSurface.withoutGroup).get? k := by rw [hwg]
    rw [LevelSubmesh.get?_map_eq, LevelSubmesh.get?_map_eq, hS, hS'] at hk
    simp only [Option.map_some', Option.some.injEq] at hk
    show S' = { S.withoutGroup with smoothingGroupIndex := S'.smoothingGroupIndex,
                                    tileSurfaces := S'.tileSurfaces }
    rw [← hk]
    rfl

namespace LevelSubmesh

end LevelSubmesh

/-- Zero is a binary32 value. -/
theorem round32_zero : round32 0 = 0 := by simp [round32]

/-- The rounding of a number whose binary exponent is known. -/
theorem round32_of_exponent (x : ℚ) (e : ℤ) (hx : x ≠ 0) (hlo : (2 : ℚ) ^ e ≤ |x|)
    (hhi : |x| < (2 : ℚ) ^ (e + 1)) (he : -126 ≤ e) :
    round32 x = (roundHalfEven (x / (2 : ℚ) ^ (e - 23)) : ℚ) * (2 : ℚ) ^ (e - 23) := by
  have hpos : 0 < |x| := abs_pos.mpr hx
  have hlog : Int.log 2 |x| = e := by
    have h1 : e ≤ Int.log 2 |x| := by
      rw [← Int.zpow_le_iff_le_log (by norm_num) hpos]
      simpa using hlo
    have h2 : Int.log 2 |x| < e + 1 := by
      rw [← Int.lt_zpow_iff_log_lt (by norm_num) hpos]
      simpa using hhi
    omega
  unfold round32
  rw [if_neg hx]
  simp only [hlog, max_eq_left he]

/-- Two is a binary32 value. -/
theorem round32_two : round32 2 = 2 := by
  rw [round32_of_exponent 2 1 (by norm_num) (by norm_num) (by norm_num [abs_of_pos]) (by norm_num)]
  have hq : (2 : ℚ) / 2 ^ ((1 : ℤ) - 23) = 8388608 := by norm_num
  rw [hq]
  have hf : ⌊(8388608 : ℚ)⌋ = 8388608 := by
    rw [Int.floor_eq_iff]; norm_num
  simp only [roundHalfEven, hf]
  norm_num

/-- Between `2 ^ 26` and `2 ^ 27` the binary32 values are the multiples of 8: the exact
difference `134217720 - 2` is rounded back to `134217720`. -/
theorem round32_134217718 : round32 134217718 = 134217720 := by
  rw [round32_of_exponent 134217718 26 (by norm_num) (by norm_num [abs_of_pos])
    (by norm_num [abs_of_pos]) (by norm_num)]
  have hq : (134217718 : ℚ) / 2 ^ ((26 : ℤ) - 23) = 67108859 / 4 := by norm_num
  rw [hq]
  have hf : ⌊(67108859 / 4 : ℚ)⌋ = 16777214 := by
    rw [Int.floor_eq_iff]; norm_num
  simp only [roundHalfEven, hf]
  norm_num

namespace LevelMesh

/-- With the query `Sample.gateAt 0` and 134217720 units remaining, the body of the loop in
binary32 goes through the portal and leaves 134217720 units remaining. -/
theorem traceBody32_absorbed (st : TraceState) (h : st.maxDist = 134217720) :
    traceBody32 (Sample.gateAt 0) Sample.mesh st =
      TraceStep.next
        { origin := (Sample.shift100.TransformPosition
            (st.origin.mulAdd32 st.direction 2)).round32,
          direction := (Sample.shift100.TransformRotation st.direction).round32,
          maxDist := 134217720 } := by
  have hchosen : chosenHit Sample.mesh
      (Sample.gateAt 0 Sample.mesh.StaticMesh.Collision st.origin
        (st.origin.mulAdd32 st.direction st.maxDist))
      (Sample.gateAt 0 Sample.mesh.DynamicMesh.Collision st.origin
        (st.origin.mulAdd32 st.direction st.maxDist)) = (Sample.submesh, true, ⟨0, 1⟩) := by
    simp [chosenHit, Sample.gateAt, Sample.mesh, Sample.submesh, Sample.bare]
  have ht : round32 (round32 (0 * st.maxDist) + 2) = 2 := by
    rw [zero_mul, round32_zero, zero_add, round32_two]
  have hm : round32 (st.maxDist - 2) = 134217720 := by
    rw [h]
    have : (134217720 : ℚ) - 2 = 134217718 := by norm_num
    rw [this, round32_134217718]
  unfold traceBody32
  simp only [hchosen]
  unfold traceHit32
  simp only [ht, hm]
  simp [elemAt, LevelSubmesh.GetSurface, Sample.submesh, Sample.gate, Sample.wall, h]
  norm_num

/-- With the query `Sample.gateAt 0` the loop in binary32 that starts with 134217720 units
remaining is still running after any number of executions of its body. -/
theorem traceLoop32_absorbed : ∀ (fuel : Nat) (st : TraceState), st.maxDist = 134217720 →
    traceLoop32 (Sample.gateAt 0) Sample.mesh fuel st = none := by
  intro fuel
  induction fuel with
  | zero => intro st _; rfl
  | succ k ih =>
    intro st h
    unfold traceLoop32
    rw [traceBody32_absorbed st h]
    simp only
    rw [ih _ rfl]
    rfl

end LevelMesh

/-- C1, failing input evaluated in binary32: on `Sample.mesh`, where every nearest-hit query
reports the portal surface at fraction 0 (a fraction in `[0, 1]`), `Trace` with
`maxDist = 134217728 = 2 ^ 27` starts with `134217720` units remaining, each execution of the
body computes `travelDist = 2` and rounds `134217720 - 2` back to `134217720`, and the loop
has not returned after any number of executions of its body. -/
theorem Trace32_does_not_return :
    LevelMesh.FractionsInUnitInterval (Sample.gateAt 0) ∧
      max (round32 (134217728 - 10)) 0 = 134217720 ∧
      ∀ fuel, LevelMesh.Trace32 (Sample.gateAt 0) Sample.mesh ⟨0, 0, 0⟩ ⟨1, 0, 0⟩ 134217728
        fuel = none := by
  have hm : max (round32 ((134217728 : ℚ) - 10)) 0 = 134217720 := by
    have : (134217728 : ℚ) - 10 = 134217718 := by norm_num
    rw [this, round32_134217718]
    norm_num
  refine ⟨LevelMesh.gateAt_fractions 0 (le_refl _) (by norm_num), hm, fun fuel => ?_⟩
  unfold LevelMesh.Trace32
  rw [hm]
  exact LevelMesh.traceLoop32_absorbed fuel _ rfl

/-- C20, failing input evaluated in binary32: with 134217720 units remaining (where `Trace`
with `maxDist = 2 ^ 27` starts) and the portal surface of `Sample.mesh` hit at fraction 0,
the portal traversal leaves 134217720 units remaining: the remaining distance has not
decreased, although the hit fraction is not negative. -/
theorem traceBody32_distance_not_decreased :
    (0 : ℚ) ≤ (Sample.gateAt 0 Sample.mesh.StaticMesh.Collision ⟨0, 0, 0⟩
      ((⟨0, 0, 0⟩ : FVector3).mulAdd32 ⟨1, 0, 0⟩ 134217720)).fraction ∧
      ∃ st1, LevelMesh.traceBody32 (Sample.gateAt 0) Sample.mesh
          ⟨⟨0, 0, 0⟩, ⟨1, 0, 0⟩, 134217720⟩ = TraceStep.next st1 ∧
        st1.maxDist = 134217720 ∧ ¬ (st1.maxDist + 2 ≤ 134217720) ∧
        ¬ (st1.maxDist < 134217720) := by
  refine ⟨by simp [Sample.gateAt, Sample.mesh, Sample.submesh], _,
    LevelMesh.traceBody32_absorbed ⟨⟨0, 0, 0⟩, ⟨1, 0, 0⟩, 134217720⟩ rfl, rfl, ?_, ?_⟩
  · norm_num
  · norm_num

end LevelMeshModel
